import Mathlib

/-!
# Verification of the cmzqc document model, JSON codec, validator and term cache

Shallow embedding of `src/cmzqc/mzqc.hpp` / `src/cmzqc/src/mzqc.cpp`.

JSON values (`nlohmann::json`) are modelled by the inductive type `MzqcSpec.Json`.
`nlohmann::json` stores object members in a `std::map` sorted by key; we model an
object as an association list with unique keys, which is observationally
equivalent for the operations the code uses (key lookup, key presence, and
per-key assignment).  Floating-point numbers are never computed with — a metric
payload is only copied verbatim — so a float literal is carried as its IEEE-754
bit pattern (a `Nat`).

C++ member functions that mutate `*this` (the various `fromJson` overloads) are
modelled as explicit state-passing functions `self → … → result`; functions that
can throw (`nlohmann` type errors on `get<std::string>` / `value(key, default)`)
return `Except String`.
-/

namespace MzqcSpec

/-- Model of an `nlohmann::json` value. -/
inductive Json where
  | null : Json
  | bool (b : Bool) : Json
  | int (n : Int) : Json
  | float (bits : Nat) : Json
  | str (s : String) : Json
  | arr (elems : List Json) : Json
  | obj (fields : List (String × Json)) : Json
  deriving Inhabited

/-- First binding of a key in an association list (`std::map::find`). -/
def lookupField : List (String × Json) → String → Option Json
  | [], _ => none
  | (k, v) :: rest, key => if key = k then some v else lookupField rest key

/-- `j.find(key)` on an object; `none` for non-objects and absent keys. -/
def Json.find : Json → String → Option Json
  | .obj fields, key => lookupField fields key
  | _, _ => none

/-- `j.contains(key)`: true iff `j` is an object having the key. -/
def Json.hasKey (j : Json) (key : String) : Bool :=
  (j.find key).isSome

/-- `j[key]` for a key known to be present (otherwise `null`, never used there). -/
def Json.getD (j : Json) (key : String) : Json :=
  (j.find key).getD .null

/-- `j.get<std::string>()`: the string, or a type error. -/
def Json.getStr : Json → Except String String
  | .str s => .ok s
  | _ => .error "type_error.302"

/-- `j.value(key, default)` for a string default: returns the default when the
key is absent, the string when present, and throws on a type mismatch or when
`j` is not an object (nlohmann `type_error.302` / `type_error.306`). -/
def Json.valueStr (j : Json) (key : String) (dflt : String) : Except String String :=
  match j with
  | .obj fields =>
    match lookupField fields key with
    | none => .ok dflt
    | some (.str s) => .ok s
    | some _ => .error "type_error.302"
  | _ => .error "type_error.306"

/-- `j.is_null()`. -/
def Json.isNull : Json → Bool
  | .null => true
  | _ => false

/-- `j.is_array()`. -/
def Json.isArr : Json → Bool
  | .arr _ => true
  | _ => false

/-- `j.get_ref<array>()`: the element list of an array (else empty). -/
def Json.arrElems : Json → List Json
  | .arr elems => elems
  | _ => []

/-- The decode loop `for (x : arr) { child.fromJson(x); vec.push_back(child); }`:
each element is decoded in turn and the first thrown error propagates. -/
def decodeList {α : Type} (dec : Json → Except String α) : List Json → Except String (List α)
  | [] => .ok []
  | x :: xs => do
    let a ← dec x
    let rest ← decodeList dec xs
    .ok (a :: rest)

/-! ## Time model (`MzQCFile::getCurrentIsoTime`)

The C++ code takes `system_clock::now()`, converts it with `to_time_t` /
`gmtime` and prints it with `std::put_time(…, "%Y-%m-%dT%H:%M:%SZ")`.  We model
the clock reading as an explicit parameter `now : Nat`, the number of seconds
since the Unix epoch (1970-01-01T00:00:00Z), and reimplement the `gmtime`
civil-calendar conversion (the standard days-to-civil algorithm for the
proleptic Gregorian calendar) and the zero-padded decimal formatting of
`put_time`. -/

/-- Decimal digits, fuel-based structural recursion (the fuel always exceeds
the digit count, see `natDigitsAux_ge`) so that the function reduces inside
the kernel. -/
def natDigitsAux : Nat → Nat → List Char
  | _, 0 => []
  | n, fuel + 1 =>
    if n < 10 then [Char.ofNat (48 + n)]
    else natDigitsAux (n / 10) fuel ++ [Char.ofNat (48 + n % 10)]

/-- Decimal digits of `n`, most significant first (each as an ASCII char). -/
def natDigits (n : Nat) : List Char := natDigitsAux n (n + 1)

/-- Unpadded decimal rendering of a natural number (`%Y` of `put_time`). -/
def showNat (n : Nat) : String := ⟨natDigits n⟩

/-- Two-digit zero-padded rendering (`%m`, `%d`, `%H`, `%M`, `%S`). -/
def pad2 (n : Nat) : String :=
  if n < 10 then "0" ++ showNat n else showNat n

/-- Days since 1970-01-01 to `(year, month, day)` in the proleptic Gregorian
calendar — the conversion performed by `gmtime` on `time_t` values. -/
def civilFromDays (z0 : Nat) : Nat × Nat × Nat :=
  let z := z0 + 719468
  let era := z / 146097
  let doe := z % 146097
  let yoe := (doe - doe / 1460 + doe / 36524 - doe / 146096) / 365
  let doy := doe - (365 * yoe + yoe / 4 - yoe / 100)
  let mp := (5 * doy + 2) / 153
  let d := doy - (153 * mp + 2) / 5 + 1
  let m := if mp < 10 then mp + 3 else mp - 9
  (yoe + era * 400 + (if m ≤ 2 then 1 else 0), m, d)

/-- `MzQCFile::getCurrentIsoTime` at clock reading `now` (seconds since the
Unix epoch): `gmtime` fields printed as `%Y-%m-%dT%H:%M:%SZ`. -/
def getCurrentIsoTime (now : Nat) : String :=
  let days := now / 86400
  let secs := now % 86400
  let ymd := civilFromDays days
  showNat ymd.1 ++ "-" ++ pad2 ymd.2.1 ++ "-" ++ pad2 ymd.2.2 ++ "T" ++
    pad2 (secs / 3600) ++ ":" ++ pad2 (secs % 3600 / 60) ++ ":" ++ pad2 (secs % 60) ++ "Z"

/-! ## Document model

Each entity mirrors the corresponding class of `mzqc.hpp`; the `shared_ptr`
child slots are strictly single-owner in this model (see the repository's
design: every child has exactly one parent-held slot), so they are modelled
by value (`Option` for the nullable `fileFormat` pointer).  The default field
values are those of the C++ default constructors. -/

structure ControlledVocabulary where
  id : String := ""
  name : String := ""
  uri : String := ""
  version : String := ""

structure CvParameter where
  accession : String := ""
  name : String := ""
  value : String := ""
  cvRef : String := ""

structure AnalysisSoftware where
  accession : String := ""
  name : String := ""
  version : String := ""
  uri : String := ""

structure InputFile where
  location : String := ""
  name : String := ""
  fileFormat : Option CvParameter := none
  fileProperties : List CvParameter := []

structure QualityMetric where
  accession : String := ""
  name : String := ""
  description : String := ""
  value : Json := .null
  unit : String := ""

structure RunQuality where
  label : String := ""
  inputFiles : List InputFile := []
  analysisSoftware : List AnalysisSoftware := []
  metrics : List QualityMetric := []

structure SetQuality where
  label : String := ""
  setRefs : List String := []
  metrics : List QualityMetric := []

structure MzQCFile where
  creationDate : String
  version : String := "1.0.0"
  contactName : String := ""
  contactAddress : String := ""
  description : String := ""
  controlledVocabularies : List ControlledVocabulary := []
  runQualities : List RunQuality := []
  setQualities : List SetQuality := []

instance : Inhabited ControlledVocabulary := ⟨{}⟩

instance : Inhabited CvParameter := ⟨{}⟩

instance : Inhabited AnalysisSoftware := ⟨{}⟩

instance : Inhabited InputFile := ⟨{}⟩

instance : Inhabited QualityMetric := ⟨{}⟩

instance : Inhabited RunQuality := ⟨{}⟩

instance : Inhabited SetQuality := ⟨{}⟩

/-- The `MzQCFile` constructor: an empty `creationDate` argument is replaced by
the current time (`creationDate.empty() ? getCurrentIsoTime() : creationDate`);
`controlledVocabularies` is not a constructor parameter and starts empty. -/
def MzQCFile.construct (now : Nat) (creationDate : String := "")
    (version : String := "1.0.0") (contactName : String := "")
    (contactAddress : String := "") (description : String := "")
    (runQualities : List RunQuality := []) (setQualities : List SetQuality := []) :
    MzQCFile :=
  { creationDate := if creationDate = "" then getCurrentIsoTime now else creationDate
    version, contactName, contactAddress, description
    controlledVocabularies := []
    runQualities, setQualities }

/-- `std::make_shared<MzQCFile>()`: the default-constructed document. -/
def MzQCFile.fresh (now : Nat) : MzQCFile := MzQCFile.construct now

/-! ## JSON codec: encoders (`toJson` members) -/

/-- `ControlledVocabulary::toJson`: all four fields unconditionally. -/
def ControlledVocabulary.toJson (cv : ControlledVocabulary) : Json :=
  .obj [("id", .str cv.id), ("name", .str cv.name),
        ("uri", .str cv.uri), ("version", .str cv.version)]

/-- `CvParameter::toJson`: `accession`/`name` unconditionally, `value`/`cvRef`
only when non-empty. -/
def CvParameter.toJson (p : CvParameter) : Json :=
  .obj ([("accession", .str p.accession), ("name", .str p.name)]
    ++ (if p.value = "" then [] else [("value", .str p.value)])
    ++ (if p.cvRef = "" then [] else [("cvRef", .str p.cvRef)]))

/-- `AnalysisSoftware::toJson`: `accession`/`name`/`version` unconditionally,
`uri` only when non-empty. -/
def AnalysisSoftware.toJson (sw : AnalysisSoftware) : Json :=
  .obj ([("accession", .str sw.accession), ("name", .str sw.name),
        ("version", .str sw.version)]
    ++ (if sw.uri = "" then [] else [("uri", .str sw.uri)]))

/-- `InputFile::toJson`: `location`/`name` unconditionally, `fileFormat` when
the pointer is non-null, `fileProperties` when the list is non-empty. -/
def InputFile.toJson (f : InputFile) : Json :=
  .obj ([("location", .str f.location), ("name", .str f.name)]
    ++ (match f.fileFormat with
        | some ff => [("fileFormat", ff.toJson)]
        | none => [])
    ++ (if f.fileProperties.isEmpty then []
        else [("fileProperties", .arr (f.fileProperties.map CvParameter.toJson))]))

/-- `QualityMetric::toJson`: `accession`/`name` unconditionally; `description`
and `unit` when non-empty; `value` when not null. -/
def QualityMetric.toJson (m : QualityMetric) : Json :=
  .obj ([("accession", .str m.accession), ("name", .str m.name)]
    ++ (if m.description = "" then [] else [("description", .str m.description)])
    ++ (if m.value.isNull then [] else [("value", m.value)])
    ++ (if m.unit = "" then [] else [("unit", .str m.unit)]))

/-- `RunQuality::toJson`: `label` and all three lists unconditionally (the
lists are emitted even when empty). -/
def RunQuality.toJson (rq : RunQuality) : Json :=
  .obj [("label", .str rq.label),
        ("inputFiles", .arr (rq.inputFiles.map InputFile.toJson)),
        ("analysisSoftware", .arr (rq.analysisSoftware.map AnalysisSoftware.toJson)),
        ("metrics", .arr (rq.metrics.map QualityMetric.toJson))]

/-- `SetQuality::toJson`: `label`, `setRefs` and `metrics` unconditionally. -/
def SetQuality.toJson (sq : SetQuality) : Json :=
  .obj [("label", .str sq.label),
        ("setRefs", .arr (sq.setRefs.map Json.str)),
        ("metrics", .arr (sq.metrics.map QualityMetric.toJson))]

/-- The inner `mzQC` object of `MzQCFile::toJson`: `version`/`creationDate`
unconditionally, the three optional scalars when non-empty, the three lists
when non-empty. -/
def MzQCFile.innerJson (f : MzQCFile) : Json :=
  .obj ([("version", .str f.version), ("creationDate", .str f.creationDate)]
    ++ (if f.contactName = "" then [] else [("contactName", .str f.contactName)])
    ++ (if f.contactAddress = "" then [] else [("contactAddress", .str f.contactAddress)])
    ++ (if f.description = "" then [] else [("description", .str f.description)])
    ++ (if f.controlledVocabularies.isEmpty then []
        else [("controlledVocabularies",
               .arr (f.controlledVocabularies.map ControlledVocabulary.toJson))])
    ++ (if f.runQualities.isEmpty then []
        else [("runQualities", .arr (f.runQualities.map RunQuality.toJson))])
    ++ (if f.setQualities.isEmpty then []
        else [("setQualities", .arr (f.setQualities.map SetQuality.toJson))]))

/-- `MzQCFile::toJson`: the inner object wrapped under the root key `mzQC`. -/
def MzQCFile.toJson (f : MzQCFile) : Json :=
  .obj [("mzQC", f.innerJson)]

/-! ## JSON codec: decoders (`fromJson` members)

Each C++ `fromJson` mutates `*this`; here `self` is passed explicitly and the
updated entity is returned.  A field read with `j.value(key, "")` is always
overwritten (with the wire value or the empty default); the guarded fields
(`fileFormat`, the metric `value` payload, and every list guarded by
`contains(key) && is_array()`) keep their prior contents when the guard
fails. -/

/-- `ControlledVocabulary::fromJson`. -/
def ControlledVocabulary.fromJson (_self : ControlledVocabulary) (j : Json) :
    Except String ControlledVocabulary := do
  let id ← j.valueStr "id" ""
  let name ← j.valueStr "name" ""
  let uri ← j.valueStr "uri" ""
  let version ← j.valueStr "version" ""
  .ok { id, name, uri, version }

/-- `CvParameter::fromJson`. -/
def CvParameter.fromJson (_self : CvParameter) (j : Json) :
    Except String CvParameter := do
  let accession ← j.valueStr "accession" ""
  let name ← j.valueStr "name" ""
  let value ← j.valueStr "value" ""
  let cvRef ← j.valueStr "cvRef" ""
  .ok { accession, name, value, cvRef }

/-- `AnalysisSoftware::fromJson`. -/
def AnalysisSoftware.fromJson (_self : AnalysisSoftware) (j : Json) :
    Except String AnalysisSoftware := do
  let accession ← j.valueStr "accession" ""
  let name ← j.valueStr "name" ""
  let version ← j.valueStr "version" ""
  let uri ← j.valueStr "uri" ""
  .ok { accession, name, version, uri }

/-- `InputFile::fromJson`: `fileFormat` is decoded into a fresh child only when
the key is present; `fileProperties` is cleared and repopulated only when the
key holds an array; otherwise both keep their prior contents. -/
def InputFile.fromJson (self : InputFile) (j : Json) : Except String InputFile := do
  let location ← j.valueStr "location" ""
  let name ← j.valueStr "name" ""
  let fileFormat ←
    (if j.hasKey "fileFormat" then do
        let ff ← CvParameter.fromJson {} (j.getD "fileFormat")
        pure (some ff)
      else pure self.fileFormat)
  let fileProperties ←
    (if j.hasKey "fileProperties" && (j.getD "fileProperties").isArr then
      decodeList (fun p => CvParameter.fromJson {} p) (j.getD "fileProperties").arrElems
    else pure self.fileProperties)
  .ok { location, name, fileFormat, fileProperties }

/-- `QualityMetric::fromJson`: the payload is copied verbatim when the key is
present and keeps its prior contents otherwise. -/
def QualityMetric.fromJson (self : QualityMetric) (j : Json) :
    Except String QualityMetric := do
  let accession ← j.valueStr "accession" ""
  let name ← j.valueStr "name" ""
  let description ← j.valueStr "description" ""
  let value := if j.hasKey "value" then j.getD "value" else self.value
  let unit ← j.valueStr "unit" ""
  .ok { accession, name, description, value, unit }

/-- `RunQuality::fromJson`: each list is cleared and repopulated only when its
key holds an array; otherwise it keeps its prior contents. -/
def RunQuality.fromJson (self : RunQuality) (j : Json) :
    Except String RunQuality := do
  let label ← j.valueStr "label" ""
  let inputFiles ←
    (if j.hasKey "inputFiles" && (j.getD "inputFiles").isArr then
      decodeList (fun x => InputFile.fromJson {} x) (j.getD "inputFiles").arrElems
    else pure self.inputFiles)
  let analysisSoftware ←
    (if j.hasKey "analysisSoftware" && (j.getD "analysisSoftware").isArr then
      decodeList (fun x => AnalysisSoftware.fromJson {} x) (j.getD "analysisSoftware").arrElems
    else pure self.analysisSoftware)
  let metrics ←
    (if j.hasKey "metrics" && (j.getD "metrics").isArr then
      decodeList (fun x => QualityMetric.fromJson {} x) (j.getD "metrics").arrElems
    else pure self.metrics)
  .ok { label, inputFiles, analysisSoftware, metrics }

/-- `SetQuality::fromJson`: `setRefs` elements are read with
`get<std::string>()` (a type error on non-strings). -/
def SetQuality.fromJson (self : SetQuality) (j : Json) :
    Except String SetQuality := do
  let label ← j.valueStr "label" ""
  let setRefs ←
    (if j.hasKey "setRefs" && (j.getD "setRefs").isArr then
      decodeList Json.getStr (j.getD "setRefs").arrElems
    else pure self.setRefs)
  let metrics ←
    (if j.hasKey "metrics" && (j.getD "metrics").isArr then
      decodeList (fun x => QualityMetric.fromJson {} x) (j.getD "metrics").arrElems
    else pure self.metrics)
  .ok { label, setRefs, metrics }

/-- `MzQCFile::fromJson` at clock reading `now`: the body is `j["mzQC"]` when
that key is present and `j` itself otherwise; an absent `creationDate` is
regenerated from the current time; each list is cleared and repopulated only
when its key holds an array and keeps its prior contents otherwise. -/
def MzQCFile.fromJson (self : MzQCFile) (now : Nat) (j : Json) :
    Except String MzQCFile := do
  let mzqc := if j.hasKey "mzQC" then j.getD "mzQC" else j
  let creationDate ←
    (if mzqc.hasKey "creationDate" then (mzqc.getD "creationDate").getStr
    else pure (getCurrentIsoTime now))
  let version ← mzqc.valueStr "version" ""
  let contactName ← mzqc.valueStr "contactName" ""
  let contactAddress ← mzqc.valueStr "contactAddress" ""
  let description ← mzqc.valueStr "description" ""
  let controlledVocabularies ←
    (if mzqc.hasKey "controlledVocabularies" && (mzqc.getD "controlledVocabularies").isArr then
      decodeList (fun x => ControlledVocabulary.fromJson {} x)
        (mzqc.getD "controlledVocabularies").arrElems
    else pure self.controlledVocabularies)
  let runQualities ←
    (if mzqc.hasKey "runQualities" && (mzqc.getD "runQualities").isArr then
      decodeList (fun x => RunQuality.fromJson {} x) (mzqc.getD "runQualities").arrElems
    else pure self.runQualities)
  let setQualities ←
    (if mzqc.hasKey "setQualities" && (mzqc.getD "setQualities").isArr then
      decodeList (fun x => SetQuality.fromJson {} x) (mzqc.getD "setQualities").arrElems
    else pure self.setQualities)
  .ok { creationDate, version, contactName, contactAddress, description
        controlledVocabularies, runQualities, setQualities }

/-- `MzQCFile::fromJsonStatic`: decode into a default-constructed document. -/
def MzQCFile.fromJsonStatic (now : Nat) (j : Json) : Except String MzQCFile :=
  (MzQCFile.fresh now).fromJson now j

/-! ## Structural validator (`validateAgainstSchema`) -/

/-- The presence checks of `validateAgainstSchema`, in source order, returning
the `cerr` reason of the first failed check (`none` means the document is
accepted; the C++ message for the first check quotes the key name, rendered
here without the quote marks).  The loaded schema payload is never consulted
by the checks. -/
def schemaChecks (j : Json) : Option String :=
  if ¬ j.hasKey "mzQC" then
    some "missing root mzQC object"
  else
    let mzqc := j.getD "mzQC"
    if ¬ (mzqc.hasKey "version" ∧ mzqc.hasKey "creationDate") then
      some "missing required properties in mzQC object"
    else if ¬ mzqc.hasKey "runQualities" ∧ ¬ mzqc.hasKey "setQualities" then
      some "either runQualities or setQualities must be present"
    else if ¬ mzqc.hasKey "controlledVocabularies" then
      some "controlledVocabularies must be present"
    else
      none

/-- `validateAgainstSchema`: false when loading the schema file throws (the
exception is caught and turned into `false`), otherwise the result of the
presence checks. -/
def validateAgainstSchema (schemaLoadOk : Bool) (j : Json) : Bool :=
  if schemaLoadOk then (schemaChecks j).isNone else false

/-- `MzQCFile::toFile` with a non-empty `schemaPath` argument modelled by
`schemaProvided = true`: encode, then validate, then (only on success) open
the output file and write the dump.  `.ok j` means `j` was written to the
file; `.error` means the function threw before the output stream was opened,
so the target file is neither created nor modified. -/
def MzQCFile.toFile (f : MzQCFile) (schemaProvided schemaLoadOk : Bool) :
    Except String Json :=
  let j := f.toJson
  if schemaProvided then
    if validateAgainstSchema schemaLoadOk j then .ok j
    else .error "Generated mzQC does not conform to schema"
  else .ok j

/-! ## Term cache (`CvTermCache`, OBO line scanner) -/

structure CvTermDetails where
  accession : String := ""
  name : String := ""
  definition : String := ""
  relationships : List String := []
  parentTerms : List String := []
  valueType : Option String := none
  unit : Option String := none

instance : Inhabited CvTermDetails := ⟨{}⟩

/-- `termCache[key] = value` on a `std::map`: replace the existing binding or
add a new one.  The map is modelled as an association list with unique keys;
`std::map` keeps keys sorted while this list keeps first-insertion order,
which is equivalent for lookup, membership and size. -/
def setEntry : List (String × CvTermDetails) → String → CvTermDetails →
    List (String × CvTermDetails)
  | [], k, v => [(k, v)]
  | (k', v') :: rest, k, v =>
    if k = k' then (k, v) :: rest else (k', v') :: setEntry rest k v

/-- Lookup in the term cache. -/
def lookupTerm : List (String × CvTermDetails) → String → Option CvTermDetails
  | [], _ => none
  | (k, v) :: rest, key => if key = k then some v else lookupTerm rest key

/-- `line.find(p) == 0`: the string starts with the given prefix. -/
def strStartsWith (s p : String) : Bool :=
  p.data.isPrefixOf s.data

/-- `line.substr(n)`: everything after the first `n` characters. -/
def strDrop (s : String) (n : Nat) : String :=
  ⟨s.data.drop n⟩

/-- One non-marker line applied to the in-progress term record: recognized
prefixes `id:`, `name:`, `def:`, `is_a:` update the record (the substring
after the prefix is kept verbatim, leading whitespace included); blank lines,
`!` comments and unrecognized prefixes leave it unchanged. -/
def applyLine (cur : CvTermDetails) (line : String) : CvTermDetails :=
  if line = "" ∨ strStartsWith line "!" then cur
  else if strStartsWith line "id:" then { cur with accession := strDrop line 3 }
  else if strStartsWith line "name:" then { cur with name := strDrop line 5 }
  else if strStartsWith line "def:" then { cur with definition := strDrop line 4 }
  else if strStartsWith line "is_a:" then
    { cur with parentTerms := cur.parentTerms ++ [strDrop line 5] }
  else cur

/-- Flushing the in-progress record into the cache: stored only when a term
block is open and its accession is non-empty. -/
def flushTerm (cur : CvTermDetails) (inTerm : Bool)
    (cache : List (String × CvTermDetails)) : List (String × CvTermDetails) :=
  if inTerm ∧ cur.accession ≠ "" then setEntry cache cur.accession cur else cache

/-- The line loop of `CvTermCache::parseOboFile`: blank lines and `!` comments
are skipped; a `[Term]` line flushes the previous record and opens a fresh
one; other lines update the record only inside a term block; end of input
flushes the still-open record. -/
def parseLines : List String → CvTermDetails → Bool →
    List (String × CvTermDetails) → List (String × CvTermDetails)
  | [], cur, inTerm, cache => flushTerm cur inTerm cache
  | line :: rest, cur, inTerm, cache =>
    if line = "" ∨ strStartsWith line "!" then parseLines rest cur inTerm cache
    else if line = "[Term]" then
      parseLines rest {} true (flushTerm cur inTerm cache)
    else if inTerm then parseLines rest (applyLine cur line) inTerm cache
    else parseLines rest cur inTerm cache

structure CvTermCache where
  currentOboFile : String := ""
  termCache : List (String × CvTermDetails) := []

instance : Inhabited CvTermCache := ⟨{}⟩

/-- `CvTermCache::parseOboFile` on the file's lines: the scan starts from the
EXISTING `termCache` member (it is never cleared) and the returned count is
`termCache.size()` after the scan.  The `-1` path for an unopenable file is
file I/O and is not modelled; the file's contents are passed as its lines. -/
def CvTermCache.parseOboFile (self : CvTermCache) (lines : List String) :
    CvTermCache × Nat :=
  let cache := parseLines lines {} false self.termCache
  ({ self with termCache := cache }, cache.length)

/-- `CvTermCache::loadFromOboFile`: record the file name, then parse. -/
def CvTermCache.loadFromOboFile (self : CvTermCache) (filename : String)
    (lines : List String) : CvTermCache × Nat :=
  CvTermCache.parseOboFile { self with currentOboFile := filename } lines

/-! ## Auxiliary definitions for the verification -/

/-- Left-biased overlay of two lookup results: the first when present,
otherwise the second. -/
def overlay {α : Type} (a b : Option α) : Option α :=
  match a with
  | some v => some v
  | none => b

/-- The term record accumulated from the body lines of one `[Term]` block
(every line applied in order to a freshly reset record). -/
def termOfBody (body : List String) : CvTermDetails :=
  body.foldl applyLine {}

/-- The effect of a sequence of `[Term]` blocks on the cache: each block's
accumulated record is flushed in order. -/
def runBlocks (blocks : List (List String)) (cache : List (String × CvTermDetails)) :
    List (String × CvTermDetails) :=
  blocks.foldl (fun c b => flushTerm (termOfBody b) true c) cache

/-- The accessions that a sequence of `[Term]` blocks actually stores: the
final accession of each block (last `id:` line wins), with blocks whose final
accession is empty skipped. -/
def keptAccessions (blocks : List (List String)) : List String :=
  (blocks.map (fun x => (termOfBody x).accession)).filter (fun a => a != "")

/-- ASCII decimal digit check. -/
def isDigitCh (c : Char) : Bool :=
  48 ≤ c.toNat && c.toNat ≤ 57

/-- Numeric value of a two-digit ASCII field. -/
def twoDigitVal (c1 c2 : Char) : Nat :=
  (c1.toNat - 48) * 10 + (c2.toNat - 48)

/-- Modelled from the spec: a well-formed ISO-8601 UTC timestamp in the shape
the specification asserts for `creationDate`, `YYYY-MM-DDThh:mm:ssZ` — exactly
20 characters, digits in the date/time positions, the literal separators
`-`, `T`, `:`, `Z`, and in-range month (01–12), day (01–31), hour (00–23),
minute and second (00–59) fields. -/
def isIso8601UTC (s : String) : Bool :=
  match s.data with
  | [y1, y2, y3, y4, s1, mo1, mo2, s2, d1, d2, t, h1, h2, c1, mi1, mi2, c2, se1, se2, z] =>
    isDigitCh y1 && isDigitCh y2 && isDigitCh y3 && isDigitCh y4 &&
    s1 == '-' && s2 == '-' && t == 'T' && c1 == ':' && c2 == ':' && z == 'Z' &&
    isDigitCh mo1 && isDigitCh mo2 && isDigitCh d1 && isDigitCh d2 &&
    isDigitCh h1 && isDigitCh h2 && isDigitCh mi1 && isDigitCh mi2 &&
    isDigitCh se1 && isDigitCh se2 &&
    1 ≤ twoDigitVal mo1 mo2 && twoDigitVal mo1 mo2 ≤ 12 &&
    1 ≤ twoDigitVal d1 d2 && twoDigitVal d1 d2 ≤ 31 &&
    twoDigitVal h1 h2 ≤ 23 && twoDigitVal mi1 mi2 ≤ 59 && twoDigitVal se1 se2 ≤ 59
  | _ => false

/-! ## Concrete example values used by witnesses and counterexamples -/

/-- Example file-format parameter. -/
def exFmt : CvParameter := ⟨"MS:1000563", "raw file", "", "MS"⟩

/-- Example file-property parameter. -/
def exProp : CvParameter := ⟨"MS:1000747", "completion time", "2024-01-01", "MS"⟩

/-- Example input file. -/
def exFile : InputFile := ⟨"file:///data/a.raw", "a.raw", some exFmt, [exProp]⟩

/-- Example analysis software. -/
def exSw : AnalysisSoftware := ⟨"MS:1000799", "tool", "1.2.3", "http://tool.example"⟩

/-- Example metric whose payload exercises every payload shape (null, boolean,
integer, float, string, list, map) with nesting. -/
def exMetric : QualityMetric :=
  ⟨"QC:0000000", "Example", "demo metric",
   .obj [("RT", .str "12.3"), ("n", .int 5),
         ("xs", .arr [.float 4614253070214989087, .bool true, .null,
                      .obj [("k", .arr [.int (-2)])]])],
   "unit"⟩

/-- Example metric with an integer payload. -/
def exMetric2 : QualityMetric := ⟨"QC:0000001", "count", "", .int 3, ""⟩

/-- Example controlled vocabulary reference. -/
def exCv : ControlledVocabulary := ⟨"MS", "PSI-MS", "http://purl.example/ms.obo", "4.1.7"⟩

/-- Example run-quality group. -/
def exRq : RunQuality := ⟨"Run A", [exFile], [exSw], [exMetric]⟩

/-- Example set-quality group. -/
def exSq : SetQuality := ⟨"Set 1", ["Run A"], [exMetric2]⟩

/-- Fully populated example document. -/
def exDoc : MzQCFile :=
  ⟨"2024-01-01T00:00:00Z", "1.0.0", "Jane Roe", "jane@example.org", "demo",
   [exCv], [exRq], [exSq]⟩

/-- Document with populated lists, used to exhibit decode retention. -/
def priorDoc : MzQCFile :=
  ⟨"2020-05-05T05:05:05Z", "1.0.0", "", "", "", [exCv], [exRq], [exSq]⟩

/-- Wire object that itself contains an `mzQC` key next to sibling scalars. -/
def trickyWire : Json :=
  .obj [("mzQC", .obj [("version", .str "x"), ("creationDate", .str "t")]),
        ("version", .str "y"), ("creationDate", .str "u")]

/-- Wire document passing every validator check. -/
def okWire : Json :=
  .obj [("mzQC", .obj [("version", .str "1.0.0"), ("creationDate", .str "t"),
        ("runQualities", .arr []), ("controlledVocabularies", .arr [])])]

/-- Wire document whose `mzQC` object lacks only `version`. -/
def noVersionWire : Json :=
  .obj [("mzQC", .obj [("creationDate", .str "t"),
        ("runQualities", .arr []), ("controlledVocabularies", .arr [])])]

/-- Wire document whose `mzQC` object lacks only `creationDate`. -/
def noCreationWire : Json :=
  .obj [("mzQC", .obj [("version", .str "1.0.0"),
        ("runQualities", .arr []), ("controlledVocabularies", .arr [])])]

/-- Document with empty optional scalars and empty lists. -/
def exEmptyDoc : MzQCFile := ⟨"2024-01-01T00:00:00Z", "1.0.0", "", "", "", [], [], []⟩

/-- Inner wire object that does not itself contain an `mzQC` key. -/
def exInner : Json := .obj [("version", .str "2.0"), ("creationDate", .str "T")]

/-- Wire object mixing the three decode branches: `contactName` and
`creationDate` present, `runQualities` present but not an array,
`setQualities` present as an (empty) array, everything else absent. -/
def wireC4 : Json :=
  .obj [("contactName", .str "N"),
        ("runQualities", .str "notAnArray"),
        ("setQualities", .arr []),
        ("creationDate", .str "2021-01-01T00:00:00Z")]

/-- The document produced by decoding `wireC4` into `priorDoc`: scalars
overwritten (absent ones to the empty default), `controlledVocabularies` and
`runQualities` retained from `priorDoc`, `setQualities` cleared. -/
def c4Result : MzQCFile :=
  ⟨"2021-01-01T00:00:00Z", "", "N", "", "", [exCv], [exRq], []⟩

/-! ## Codec round-trip lemmas -/

theorem isNull_eq_true_iff (j : Json) : j.isNull = true ↔ j = .null := by
  cases j <;> simp [Json.isNull]

theorem bindOk {α β : Type} (a : α) (f : α → Except String β) :
    (Except.ok a >>= f) = f a := rfl

theorem bindErr {α β : Type} (e : String) (f : α → Except String β) :
    ((Except.error e : Except String α) >>= f) = Except.error e := rfl

theorem pureExcept {α : Type} (a : α) : (pure a : Except String α) = Except.ok a := rfl

theorem bind_ok_inv {α β : Type} (e : Except String α) (k : α → Except String β)
    (b : β) (h : (e >>= k) = .ok b) : ∃ a, e = .ok a ∧ k a = .ok b := by
  cases e with
  | ok a => exact ⟨a, rfl, h⟩
  | error msg => rw [bindErr] at h; cases h

theorem decodeList_map_ok {α : Type} (dec : Json → Except String α) (enc : α → Json)
    (xs : List α) (h : ∀ x ∈ xs, dec (enc x) = .ok x) :
    decodeList dec (xs.map enc) = .ok xs := by
  induction xs with
  | nil => rfl
  | cons a as ih =>
    simp only [List.map_cons, decodeList, h a (by simp), bindOk,
      ih (fun x hx => h x (by simp [hx]))]

theorem controlledVocabulary_roundTrip (self cv : ControlledVocabulary) :
    ControlledVocabulary.fromJson self cv.toJson = .ok cv := by
  cases cv
  simp [ControlledVocabulary.fromJson, ControlledVocabulary.toJson, Json.valueStr,
    lookupField, bindOk]

theorem cvParameter_roundTrip (self p : CvParameter) :
    CvParameter.fromJson self p.toJson = .ok p := by
  cases p with
  | mk accession name value cvRef =>
    by_cases hv : value = "" <;> by_cases hc : cvRef = "" <;>
      simp [CvParameter.fromJson, CvParameter.toJson, Json.valueStr,
        lookupField, bindOk, hv, hc]

theorem analysisSoftware_roundTrip (self sw : AnalysisSoftware) :
    AnalysisSoftware.fromJson self sw.toJson = .ok sw := by
  cases sw with
  | mk accession name version uri =>
    by_cases hu : uri = "" <;>
      simp [AnalysisSoftware.fromJson, AnalysisSoftware.toJson, Json.valueStr,
        lookupField, bindOk, hu]

theorem listIsEmptyFalse {α : Type} (l : List α) (h : ¬ l = []) :
    l.isEmpty = false := by
  cases l with
  | nil => exact absurd rfl h
  | cons a as => rfl

theorem decodeList_cvParameter (xs : List CvParameter) :
    decodeList (fun x => CvParameter.fromJson {} x) (xs.map CvParameter.toJson) = .ok xs :=
  decodeList_map_ok _ _ xs (fun x _ => cvParameter_roundTrip {} x)

theorem inputFile_roundTrip (f : InputFile) :
    InputFile.fromJson {} f.toJson = .ok f := by
  cases f with
  | mk location name fileFormat fileProperties =>
    by_cases hp : fileProperties = []
    · cases fileFormat <;>
        simp [InputFile.fromJson, InputFile.toJson, Json.valueStr, Json.hasKey,
          Json.find, Json.getD, Json.isArr, Json.arrElems, lookupField, bindOk,
          pureExcept, hp, cvParameter_roundTrip]
    · cases fileFormat <;>
        simp [InputFile.fromJson, InputFile.toJson, Json.valueStr, Json.hasKey,
          Json.find, Json.getD, Json.isArr, Json.arrElems, lookupField, bindOk,
          pureExcept, listIsEmptyFalse fileProperties hp, cvParameter_roundTrip,
          decodeList_cvParameter fileProperties]

theorem isEmptyIffNil {α : Type} (l : List α) : l.isEmpty = true ↔ l = [] := by
  cases l <;> simp [List.isEmpty]

theorem qualityMetric_roundTrip (m : QualityMetric) :
    QualityMetric.fromJson {} m.toJson = .ok m := by
  cases m with
  | mk accession name description value unit =>
    by_cases hv : value.isNull = true
    · have hval : value = .null := (isNull_eq_true_iff value).mp hv
      subst hval
      by_cases hd : description = "" <;> by_cases hu : unit = "" <;>
        simp [QualityMetric.fromJson, QualityMetric.toJson, Json.valueStr, Json.hasKey,
          Json.find, Json.getD, Json.isNull, lookupField, bindOk, pureExcept, hd, hu]
    · have hval : value.isNull = false := by simpa using hv
      by_cases hd : description = "" <;> by_cases hu : unit = "" <;>
        simp [QualityMetric.fromJson, QualityMetric.toJson, Json.valueStr, Json.hasKey,
          Json.find, Json.getD, hval, lookupField, bindOk, pureExcept, hd, hu]

theorem decodeList_qualityMetric (xs : List QualityMetric) :
    decodeList (fun x => QualityMetric.fromJson {} x) (xs.map QualityMetric.toJson) = .ok xs :=
  decodeList_map_ok _ _ xs (fun x _ => qualityMetric_roundTrip x)

theorem decodeList_inputFile (xs : List InputFile) :
    decodeList (fun x => InputFile.fromJson {} x) (xs.map InputFile.toJson) = .ok xs :=
  decodeList_map_ok _ _ xs (fun x _ => inputFile_roundTrip x)

theorem decodeList_analysisSoftware (xs : List AnalysisSoftware) :
    decodeList (fun x => AnalysisSoftware.fromJson {} x) (xs.map AnalysisSoftware.toJson) = .ok xs :=
  decodeList_map_ok _ _ xs (fun x _ => analysisSoftware_roundTrip {} x)

theorem decodeList_controlledVocabulary (xs : List ControlledVocabulary) :
    decodeList (fun x => ControlledVocabulary.fromJson {} x)
      (xs.map ControlledVocabulary.toJson) = .ok xs :=
  decodeList_map_ok _ _ xs (fun x _ => controlledVocabulary_roundTrip {} x)

theorem decodeList_str (xs : List String) :
    decodeList Json.getStr (xs.map Json.str) = .ok xs :=
  decodeList_map_ok _ _ xs (fun x _ => rfl)

theorem runQuality_roundTrip (rq : RunQuality) :
    RunQuality.fromJson {} rq.toJson = .ok rq := by
  cases rq with
  | mk label inputFiles analysisSoftware metrics =>
    simp [RunQuality.fromJson, RunQuality.toJson, Json.valueStr, Json.hasKey,
      Json.find, Json.getD, Json.isArr, Json.arrElems, lookupField, bindOk,
      pureExcept, decodeList_inputFile, decodeList_analysisSoftware,
      decodeList_qualityMetric]

theorem setQuality_roundTrip (sq : SetQuality) :
    SetQuality.fromJson {} sq.toJson = .ok sq := by
  cases sq with
  | mk label setRefs metrics =>
    simp [SetQuality.fromJson, SetQuality.toJson, Json.valueStr, Json.hasKey,
      Json.find, Json.getD, Json.isArr, Json.arrElems, lookupField, bindOk,
      pureExcept, decodeList_str, decodeList_qualityMetric]

theorem decodeList_runQuality (xs : List RunQuality) :
    decodeList (fun x => RunQuality.fromJson {} x) (xs.map RunQuality.toJson) = .ok xs :=
  decodeList_map_ok _ _ xs (fun x _ => runQuality_roundTrip x)

theorem decodeList_setQuality (xs : List SetQuality) :
    decodeList (fun x => SetQuality.fromJson {} x) (xs.map SetQuality.toJson) = .ok xs :=
  decodeList_map_ok _ _ xs (fun x _ => setQuality_roundTrip x)

set_option maxHeartbeats 3200000 in
theorem mzqcFile_roundTrip (f : MzQCFile) (now now2 : Nat) :
    MzQCFile.fromJson (MzQCFile.fresh now2) now f.toJson = .ok f := by
  cases f with
  | mk cd v cn ca d cvs rqs sqs =>
    by_cases h1 : cn = "" <;> by_cases h2 : ca = "" <;> by_cases h3 : d = "" <;>
      by_cases h4 : cvs = [] <;> by_cases h5 : rqs = [] <;> by_cases h6 : sqs = [] <;>
      simp [MzQCFile.fromJson, MzQCFile.toJson, MzQCFile.innerJson, MzQCFile.fresh,
        MzQCFile.construct, Json.valueStr, Json.hasKey, Json.find, Json.getD,
        Json.isArr, Json.arrElems, Json.getStr, lookupField, bindOk, pureExcept,
        h1, h2, h3, h4, h5, h6, listIsEmptyFalse,
        decodeList_controlledVocabulary, decodeList_runQuality, decodeList_setQuality]

/-! ## Key-presence lemmas for the encoded top-level object -/

theorem overlay_none {α : Type} (a : Option α) : overlay a none = a := by
  cases a <;> rfl

theorem isNullFalse (j : Json) (h : ¬ j = .null) : j.isNull = false := by
  cases j <;> simp [Json.isNull] <;> exact h rfl

theorem lookupField_append (l1 l2 : List (String × Json)) (k : String) :
    lookupField (l1 ++ l2) k = overlay (lookupField l1 k) (lookupField l2 k) := by
  induction l1 with
  | nil => simp [lookupField, overlay]
  | cons p l ih =>
    cases p with
    | mk k' v => by_cases h : k = k' <;> simp [lookupField, h, ih, overlay]

theorem lookupSegMiss (c : Prop) [Decidable c] (k k' : String) (v : Json)
    (h : ¬ k = k') : lookupField (if c then [] else [(k', v)]) k = none := by
  split <;> simp [lookupField, h]

theorem lookupSegHit (c : Prop) [Decidable c] (k : String) (v : Json) :
    lookupField (if c then [] else [(k, v)]) k = if c then none else some v := by
  split <;> simp [lookupField]

theorem innerFind_version (f : MzQCFile) :
    f.innerJson.find "version" = some (.str f.version) := by
  simp [MzQCFile.innerJson, Json.find, lookupField_append, lookupField, overlay]

theorem innerFind_creationDate (f : MzQCFile) :
    f.innerJson.find "creationDate" = some (.str f.creationDate) := by
  simp [MzQCFile.innerJson, Json.find, lookupField_append, lookupField, overlay]

theorem innerFind_contactName (f : MzQCFile) :
    f.innerJson.find "contactName" =
      if f.contactName = "" then none else some (.str f.contactName) := by
  simp [MzQCFile.innerJson, Json.find, lookupField_append, lookupField,
    lookupSegMiss, lookupSegHit, overlay_none, overlay]
  split <;> simp_all

theorem innerFind_contactAddress (f : MzQCFile) :
    f.innerJson.find "contactAddress" =
      if f.contactAddress = "" then none else some (.str f.contactAddress) := by
  simp [MzQCFile.innerJson, Json.find, lookupField_append, lookupField,
    lookupSegMiss, lookupSegHit, overlay_none, overlay]
  split <;> simp_all

theorem innerFind_description (f : MzQCFile) :
    f.innerJson.find "description" =
      if f.description = "" then none else some (.str f.description) := by
  simp [MzQCFile.innerJson, Json.find, lookupField_append, lookupField,
    lookupSegMiss, lookupSegHit, overlay_none, overlay]
  split <;> simp_all

theorem innerFind_controlledVocabularies (f : MzQCFile) :
    f.innerJson.find "controlledVocabularies" =
      if f.controlledVocabularies.isEmpty = true then none
      else some (.arr (f.controlledVocabularies.map ControlledVocabulary.toJson)) := by
  simp [MzQCFile.innerJson, Json.find, lookupField_append, lookupField,
    lookupSegMiss, lookupSegHit, overlay_none, overlay]
  split <;> simp_all

theorem innerFind_runQualities (f : MzQCFile) :
    f.innerJson.find "runQualities" =
      if f.runQualities.isEmpty = true then none
      else some (.arr (f.runQualities.map RunQuality.toJson)) := by
  simp [MzQCFile.innerJson, Json.find, lookupField_append, lookupField,
    lookupSegMiss, lookupSegHit, overlay_none, overlay]
  split <;> simp_all

theorem innerFind_setQualities (f : MzQCFile) :
    f.innerJson.find "setQualities" =
      if f.setQualities.isEmpty = true then none
      else some (.arr (f.setQualities.map SetQuality.toJson)) := by
  simp [MzQCFile.innerJson, Json.find, lookupField_append, lookupField,
    lookupSegMiss, lookupSegHit, overlay_none, overlay]

theorem innerHasKey_version (f : MzQCFile) :
    f.innerJson.hasKey "version" = true := by
  simp [Json.hasKey, innerFind_version]

theorem innerHasKey_creationDate (f : MzQCFile) :
    f.innerJson.hasKey "creationDate" = true := by
  simp [Json.hasKey, innerFind_creationDate]

theorem innerHasKey_contactName (f : MzQCFile) :
    f.innerJson.hasKey "contactName" = true ↔ f.contactName ≠ "" := by
  by_cases h : f.contactName = "" <;> simp [Json.hasKey, innerFind_contactName, h]

theorem innerHasKey_contactAddress (f : MzQCFile) :
    f.innerJson.hasKey "contactAddress" = true ↔ f.contactAddress ≠ "" := by
  by_cases h : f.contactAddress = "" <;> simp [Json.hasKey, innerFind_contactAddress, h]

theorem innerHasKey_description (f : MzQCFile) :
    f.innerJson.hasKey "description" = true ↔ f.description ≠ "" := by
  by_cases h : f.description = "" <;> simp [Json.hasKey, innerFind_description, h]

theorem innerHasKey_controlledVocabularies (f : MzQCFile) :
    f.innerJson.hasKey "controlledVocabularies" = !f.controlledVocabularies.isEmpty := by
  by_cases h : f.controlledVocabularies.isEmpty = true <;>
    simp [Json.hasKey, innerFind_controlledVocabularies, h]

theorem innerHasKey_runQualities (f : MzQCFile) :
    f.innerJson.hasKey "runQualities" = !f.runQualities.isEmpty := by
  by_cases h : f.runQualities.isEmpty = true <;>
    simp [Json.hasKey, innerFind_runQualities, h]

theorem innerHasKey_setQualities (f : MzQCFile) :
    f.innerJson.hasKey "setQualities" = !f.setQualities.isEmpty := by
  by_cases h : f.setQualities.isEmpty = true <;>
    simp [Json.hasKey, innerFind_setQualities, h]

/-! ## Claim theorems -/

/-- C1: for every document with non-empty optional scalars (`contactName`,
`contactAddress`, `description`), non-empty `creationDate`, non-empty lists
(`controlledVocabularies`, `runQualities`, `setQualities` and the nested
`inputFiles`, `analysisSoftware`, `fileProperties`, `metrics`), decoding the
encoding into a fresh document reproduces every field exactly, including any
metric payload shape. -/
theorem claim_C1_roundTrip (f : MzQCFile) (now now2 : Nat)
    (hcn : f.contactName ≠ "") (hca : f.contactAddress ≠ "")
    (hd : f.description ≠ "") (hcd : f.creationDate ≠ "")
    (hcvs : f.controlledVocabularies ≠ []) (hrqs : f.runQualities ≠ [])
    (hsqs : f.setQualities ≠ [])
    (hrun : ∀ rq ∈ f.runQualities, rq.inputFiles ≠ [] ∧ rq.analysisSoftware ≠ [] ∧
      rq.metrics ≠ [] ∧ ∀ fl ∈ rq.inputFiles, fl.fileProperties ≠ [])
    (hset : ∀ sq ∈ f.setQualities, sq.metrics ≠ []) :
    MzQCFile.fromJson (MzQCFile.fresh now2) now f.toJson = .ok f :=
  mzqcFile_roundTrip f now now2

/-- C1 witness: the fully populated example document (whose metric payload
contains null, boolean, integer, float, string, list and map nodes) round
trips at concrete clock readings. -/
theorem claim_C1_roundTrip_witness :
    MzQCFile.fromJson (MzQCFile.fresh 99) 55 exDoc.toJson = .ok exDoc :=
  claim_C1_roundTrip exDoc 55 99 (by decide) (by decide) (by decide) (by decide)
    (by simp [exDoc]) (by simp [exDoc]) (by simp [exDoc])
    (by simp [exDoc, exRq, exFile]) (by simp [exDoc, exSq])

/-- C2 counterexample: the claim says every empty-string or empty-list field
is omitted on encode, but a default `RunQuality` emits its empty `label` and
its three empty lists, a default `ControlledVocabulary` emits its empty `id`,
and a default `SetQuality` emits its empty `setRefs`. -/
theorem claim_C2_counterexample :
    ({} : RunQuality).label = "" ∧ ({} : RunQuality).inputFiles = [] ∧
    (RunQuality.toJson {}).hasKey "label" = true ∧
    (RunQuality.toJson {}).hasKey "inputFiles" = true ∧
    ({} : ControlledVocabulary).id = "" ∧
    (ControlledVocabulary.toJson {}).hasKey "id" = true ∧
    ({} : SetQuality).setRefs = [] ∧
    (SetQuality.toJson {}).hasKey "setRefs" = true :=
  ⟨rfl, rfl, rfl, rfl, rfl, rfl, rfl, rfl⟩

/-- C2 amended: conditional emission applies exactly to the optional fields
(`CvParameter.value`/`cvRef`, `AnalysisSoftware.uri`, `InputFile.fileFormat`/
`fileProperties`, `QualityMetric.description`/`value`/`unit`, and the
document's `contactName`/`contactAddress`/`description` and three lists);
every other field — including empty strings and the always-present lists of
`RunQuality`/`SetQuality` — is emitted unconditionally. -/
theorem claim_C2_emission :
    (∀ cv : ControlledVocabulary,
      cv.toJson.hasKey "id" = true ∧ cv.toJson.hasKey "name" = true ∧
      cv.toJson.hasKey "uri" = true ∧ cv.toJson.hasKey "version" = true) ∧
    (∀ p : CvParameter,
      p.toJson.hasKey "accession" = true ∧ p.toJson.hasKey "name" = true ∧
      (p.toJson.hasKey "value" = true ↔ p.value ≠ "") ∧
      (p.toJson.hasKey "cvRef" = true ↔ p.cvRef ≠ "")) ∧
    (∀ sw : AnalysisSoftware,
      sw.toJson.hasKey "accession" = true ∧ sw.toJson.hasKey "name" = true ∧
      sw.toJson.hasKey "version" = true ∧
      (sw.toJson.hasKey "uri" = true ↔ sw.uri ≠ "")) ∧
    (∀ fl : InputFile,
      fl.toJson.hasKey "location" = true ∧ fl.toJson.hasKey "name" = true ∧
      (fl.toJson.hasKey "fileFormat" = true ↔ fl.fileFormat ≠ none) ∧
      (fl.toJson.hasKey "fileProperties" = true ↔ fl.fileProperties ≠ [])) ∧
    (∀ m : QualityMetric,
      m.toJson.hasKey "accession" = true ∧ m.toJson.hasKey "name" = true ∧
      (m.toJson.hasKey "description" = true ↔ m.description ≠ "") ∧
      (m.toJson.hasKey "value" = true ↔ m.value ≠ .null) ∧
      (m.toJson.hasKey "unit" = true ↔ m.unit ≠ "")) ∧
    (∀ rq : RunQuality,
      rq.toJson.hasKey "label" = true ∧ rq.toJson.hasKey "inputFiles" = true ∧
      rq.toJson.hasKey "analysisSoftware" = true ∧ rq.toJson.hasKey "metrics" = true) ∧
    (∀ sq : SetQuality,
      sq.toJson.hasKey "label" = true ∧ sq.toJson.hasKey "setRefs" = true ∧
      sq.toJson.hasKey "metrics" = true) ∧
    (∀ f : MzQCFile,
      f.innerJson.hasKey "version" = true ∧ f.innerJson.hasKey "creationDate" = true ∧
      (f.innerJson.hasKey "contactName" = true ↔ f.contactName ≠ "") ∧
      (f.innerJson.hasKey "contactAddress" = true ↔ f.contactAddress ≠ "") ∧
      (f.innerJson.hasKey "description" = true ↔ f.description ≠ "") ∧
      (f.innerJson.hasKey "controlledVocabularies" = true ↔ f.controlledVocabularies ≠ []) ∧
      (f.innerJson.hasKey "runQualities" = true ↔ f.runQualities ≠ []) ∧
      (f.innerJson.hasKey "setQualities" = true ↔ f.setQualities ≠ [])) := by
  refine ⟨?_, ?_, ?_, ?_, ?_, ?_, ?_, ?_⟩
  · intro cv
    simp [ControlledVocabulary.toJson, Json.hasKey, Json.find, lookupField]
  · intro p
    by_cases hv : p.value = "" <;> by_cases hc : p.cvRef = "" <;>
      simp [CvParameter.toJson, Json.hasKey, Json.find, lookupField, hv, hc]
  · intro sw
    by_cases hu : sw.uri = "" <;>
      simp [AnalysisSoftware.toJson, Json.hasKey, Json.find, lookupField, hu]
  · intro fl
    obtain ⟨location, name, fileFormat, fileProperties⟩ := fl
    cases fileFormat <;> by_cases hp : fileProperties = [] <;>
      simp [InputFile.toJson, Json.hasKey, Json.find, lookupField, hp,
        listIsEmptyFalse]
  · intro m
    obtain ⟨accession, name, description, value, unit⟩ := m
    by_cases hv : value = Json.null
    · subst hv
      by_cases hd : description = "" <;> by_cases hu : unit = "" <;>
        simp [QualityMetric.toJson, Json.hasKey, Json.find, lookupField,
          Json.isNull, hd, hu]
    · have hval : value.isNull = false := isNullFalse value hv
      by_cases hd : description = "" <;> by_cases hu : unit = "" <;>
        simp [QualityMetric.toJson, Json.hasKey, Json.find, lookupField,
          hval, hd, hu, hv]
  · intro rq
    simp [RunQuality.toJson, Json.hasKey, Json.find, lookupField]
  · intro sq
    simp [SetQuality.toJson, Json.hasKey, Json.find, lookupField]
  · intro f
    refine ⟨innerHasKey_version f, innerHasKey_creationDate f,
      innerHasKey_contactName f, innerHasKey_contactAddress f,
      innerHasKey_description f, ?_, ?_, ?_⟩ <;>
      [skip; skip; skip]
    · by_cases h : f.controlledVocabularies = [] <;>
        simp [innerHasKey_controlledVocabularies, h, listIsEmptyFalse]
    · by_cases h : f.runQualities = [] <;>
        simp [innerHasKey_runQualities, h, listIsEmptyFalse]
    · by_cases h : f.setQualities = [] <;>
        simp [innerHasKey_setQualities, h, listIsEmptyFalse]

/-- C3 counterexample: removing `version` and removing `creationDate` are
distinct missing elements, yet the validator reports the same reason for
both, so there is no distinct reason per missing element. -/
theorem claim_C3_counterexample :
    schemaChecks noVersionWire = some "missing required properties in mzQC object" ∧
    schemaChecks noCreationWire = some "missing required properties in mzQC object" ∧
    noVersionWire ≠ noCreationWire := by
  refine ⟨rfl, rfl, ?_⟩
  intro h
  have : (noVersionWire.getD "mzQC").hasKey "version" =
      (noCreationWire.getD "mzQC").hasKey "version" := by rw [h]
  simp [noVersionWire, noCreationWire, Json.hasKey, Json.find, Json.getD,
    lookupField] at this

/-- C3 amended: the validator accepts exactly the wire documents with the
root object, `version`, `creationDate`, `controlledVocabularies` and at least
one of `runQualities`/`setQualities`; the checks run in the fixed source
order, short-circuiting on the first failure, with a distinct reason per
failed check — `version` and `creationDate` share one combined reason. -/
theorem claim_C3_validator (j : Json) :
    (validateAgainstSchema true j = true ↔
      (j.hasKey "mzQC" = true ∧ (j.getD "mzQC").hasKey "version" = true ∧
       (j.getD "mzQC").hasKey "creationDate" = true ∧
       ((j.getD "mzQC").hasKey "runQualities" = true ∨
        (j.getD "mzQC").hasKey "setQualities" = true) ∧
       (j.getD "mzQC").hasKey "controlledVocabularies" = true)) ∧
    (j.hasKey "mzQC" = false → schemaChecks j = some "missing root mzQC object") ∧
    (j.hasKey "mzQC" = true →
      ((j.getD "mzQC").hasKey "version" = false ∨
       (j.getD "mzQC").hasKey "creationDate" = false) →
      schemaChecks j = some "missing required properties in mzQC object") ∧
    (j.hasKey "mzQC" = true → (j.getD "mzQC").hasKey "version" = true →
      (j.getD "mzQC").hasKey "creationDate" = true →
      (j.getD "mzQC").hasKey "runQualities" = false →
      (j.getD "mzQC").hasKey "setQualities" = false →
      schemaChecks j = some "either runQualities or setQualities must be present") ∧
    (j.hasKey "mzQC" = true → (j.getD "mzQC").hasKey "version" = true →
      (j.getD "mzQC").hasKey "creationDate" = true →
      ((j.getD "mzQC").hasKey "runQualities" = true ∨
       (j.getD "mzQC").hasKey "setQualities" = true) →
      (j.getD "mzQC").hasKey "controlledVocabularies" = false →
      schemaChecks j = some "controlledVocabularies must be present") := by
  by_cases h1 : j.hasKey "mzQC" = true <;>
    by_cases h2 : (j.getD "mzQC").hasKey "version" = true <;>
    by_cases h3 : (j.getD "mzQC").hasKey "creationDate" = true <;>
    by_cases h4 : (j.getD "mzQC").hasKey "runQualities" = true <;>
    by_cases h5 : (j.getD "mzQC").hasKey "setQualities" = true <;>
    by_cases h6 : (j.getD "mzQC").hasKey "controlledVocabularies" = true <;>
    simp [validateAgainstSchema, schemaChecks, h1, h2, h3, h4, h5, h6]

/-- C3 witness: the validator applied to a wire document lacking only
`version` reports the combined version/creationDate reason. -/
theorem claim_C3_validator_witness :
    schemaChecks noVersionWire = some "missing required properties in mzQC object" :=
  (claim_C3_validator noVersionWire).2.2.1 (by decide) (Or.inl (by decide))

/-- C4 counterexample: decoding a wire object with no keys into a document
whose lists are populated keeps every prior list element instead of clearing
the lists to their defaults, and regenerates `creationDate` instead of
leaving the empty default. -/
theorem claim_C4_counterexample :
    MzQCFile.fromJson priorDoc 0 (Json.obj []) =
      .ok ⟨getCurrentIsoTime 0, "", "", "", "", [exCv], [exRq], [exSq]⟩ ∧
    getCurrentIsoTime 0 = "1970-01-01T00:00:00Z" ∧
    priorDoc.runQualities = [exRq] ∧ ([exRq] : List RunQuality) ≠ [] := by
  refine ⟨rfl, by decide, rfl, by simp⟩

theorem mzqcFromJson_frame (self : MzQCFile) (now : Nat) (j : Json) (g : MzQCFile)
    (hdec : MzQCFile.fromJson self now j = .ok g) :
    ((if j.hasKey "mzQC" then j.getD "mzQC" else j).hasKey "creationDate" = false →
      g.creationDate = getCurrentIsoTime now) ∧
    ((if j.hasKey "mzQC" then j.getD "mzQC" else j).hasKey "creationDate" = true →
      ((if j.hasKey "mzQC" then j.getD "mzQC" else j).getD "creationDate").getStr =
        .ok g.creationDate) ∧
    (if j.hasKey "mzQC" then j.getD "mzQC" else j).valueStr "version" "" = .ok g.version ∧
    (if j.hasKey "mzQC" then j.getD "mzQC" else j).valueStr "contactName" "" =
      .ok g.contactName ∧
    (if j.hasKey "mzQC" then j.getD "mzQC" else j).valueStr "contactAddress" "" =
      .ok g.contactAddress ∧
    (if j.hasKey "mzQC" then j.getD "mzQC" else j).valueStr "description" "" =
      .ok g.description ∧
    (((if j.hasKey "mzQC" then j.getD "mzQC" else j).hasKey "controlledVocabularies" &&
        ((if j.hasKey "mzQC" then j.getD "mzQC" else j).getD "controlledVocabularies").isArr) =
        false →
      g.controlledVocabularies = self.controlledVocabularies) ∧
    (((if j.hasKey "mzQC" then j.getD "mzQC" else j).hasKey "controlledVocabularies" &&
        ((if j.hasKey "mzQC" then j.getD "mzQC" else j).getD "controlledVocabularies").isArr) =
        true →
      decodeList (fun x => ControlledVocabulary.fromJson {} x)
        ((if j.hasKey "mzQC" then j.getD "mzQC" else j).getD "controlledVocabularies").arrElems =
        .ok g.controlledVocabularies) ∧
    (((if j.hasKey "mzQC" then j.getD "mzQC" else j).hasKey "runQualities" &&
        ((if j.hasKey "mzQC" then j.getD "mzQC" else j).getD "runQualities").isArr) = false →
      g.runQualities = self.runQualities) ∧
    (((if j.hasKey "mzQC" then j.getD "mzQC" else j).hasKey "runQualities" &&
        ((if j.hasKey "mzQC" then j.getD "mzQC" else j).getD "runQualities").isArr) = true →
      decodeList (fun x => RunQuality.fromJson {} x)
        ((if j.hasKey "mzQC" then j.getD "mzQC" else j).getD "runQualities").arrElems =
        .ok g.runQualities) ∧
    (((if j.hasKey "mzQC" then j.getD "mzQC" else j).hasKey "setQualities" &&
        ((if j.hasKey "mzQC" then j.getD "mzQC" else j).getD "setQualities").isArr) = false →
      g.setQualities = self.setQualities) ∧
    (((if j.hasKey "mzQC" then j.getD "mzQC" else j).hasKey "setQualities" &&
        ((if j.hasKey "mzQC" then j.getD "mzQC" else j).getD "setQualities").isArr) = true →
      decodeList (fun x => SetQuality.fromJson {} x)
        ((if j.hasKey "mzQC" then j.getD "mzQC" else j).getD "setQualities").arrElems =
        .ok g.setQualities) := by
  simp only [MzQCFile.fromJson] at hdec
  obtain ⟨cd, hcd, hdec⟩ := bind_ok_inv _ _ _ hdec
  obtain ⟨v1, h1, hdec⟩ := bind_ok_inv _ _ _ hdec
  obtain ⟨v2, h2, hdec⟩ := bind_ok_inv _ _ _ hdec
  obtain ⟨v3, h3, hdec⟩ := bind_ok_inv _ _ _ hdec
  obtain ⟨v4, h4, hdec⟩ := bind_ok_inv _ _ _ hdec
  obtain ⟨v5, h5, hdec⟩ := bind_ok_inv _ _ _ hdec
  obtain ⟨v6, h6, hdec⟩ := bind_ok_inv _ _ _ hdec
  obtain ⟨v7, h7, hdec⟩ := bind_ok_inv _ _ _ hdec
  cases hdec
  refine ⟨?_, ?_, h1, h2, h3, h4, ?_, ?_, ?_, ?_, ?_, ?_⟩
  · intro hko
    rw [hko, if_neg Bool.false_ne_true] at hcd
    rw [pureExcept] at hcd
    exact (Except.ok.inj hcd).symm
  · intro hko
    rw [hko, if_pos rfl] at hcd
    exact hcd
  · intro hg
    rw [hg, if_neg Bool.false_ne_true, pureExcept] at h5
    exact (Except.ok.inj h5).symm
  · intro hg
    rw [hg, if_pos rfl] at h5
    exact h5
  · intro hg
    rw [hg, if_neg Bool.false_ne_true, pureExcept] at h6
    exact (Except.ok.inj h6).symm
  · intro hg
    rw [hg, if_pos rfl] at h6
    exact h6
  · intro hg
    rw [hg, if_neg Bool.false_ne_true, pureExcept] at h7
    exact (Except.ok.inj h7).symm
  · intro hg
    rw [hg, if_pos rfl] at h7
    exact h7

theorem runQualityFromJson_frame (self : RunQuality) (j : Json) (g : RunQuality)
    (hdec : RunQuality.fromJson self j = .ok g) :
    j.valueStr "label" "" = .ok g.label ∧
    ((j.hasKey "inputFiles" && (j.getD "inputFiles").isArr) = false →
      g.inputFiles = self.inputFiles) ∧
    ((j.hasKey "inputFiles" && (j.getD "inputFiles").isArr) = true →
      decodeList (fun x => InputFile.fromJson {} x) (j.getD "inputFiles").arrElems =
        .ok g.inputFiles) ∧
    ((j.hasKey "analysisSoftware" && (j.getD "analysisSoftware").isArr) = false →
      g.analysisSoftware = self.analysisSoftware) ∧
    ((j.hasKey "analysisSoftware" && (j.getD "analysisSoftware").isArr) = true →
      decodeList (fun x => AnalysisSoftware.fromJson {} x) (j.getD "analysisSoftware").arrElems =
        .ok g.analysisSoftware) ∧
    ((j.hasKey "metrics" && (j.getD "metrics").isArr) = false → g.metrics = self.metrics) ∧
    ((j.hasKey "metrics" && (j.getD "metrics").isArr) = true →
      decodeList (fun x => QualityMetric.fromJson {} x) (j.getD "metrics").arrElems =
        .ok g.metrics) := by
  simp only [RunQuality.fromJson] at hdec
  obtain ⟨v1, h1, hdec⟩ := bind_ok_inv _ _ _ hdec
  obtain ⟨v2, h2, hdec⟩ := bind_ok_inv _ _ _ hdec
  obtain ⟨v3, h3, hdec⟩ := bind_ok_inv _ _ _ hdec
  obtain ⟨v4, h4, hdec⟩ := bind_ok_inv _ _ _ hdec
  cases hdec
  refine ⟨h1, ?_, ?_, ?_, ?_, ?_, ?_⟩
  · intro hg
    rw [hg, if_neg Bool.false_ne_true, pureExcept] at h2
    exact (Except.ok.inj h2).symm
  · intro hg
    rw [hg, if_pos rfl] at h2
    exact h2
  · intro hg
    rw [hg, if_neg Bool.false_ne_true, pureExcept] at h3
    exact (Except.ok.inj h3).symm
  · intro hg
    rw [hg, if_pos rfl] at h3
    exact h3
  · intro hg
    rw [hg, if_neg Bool.false_ne_true, pureExcept] at h4
    exact (Except.ok.inj h4).symm
  · intro hg
    rw [hg, if_pos rfl] at h4
    exact h4

theorem inputFileFromJson_frame (self : InputFile) (j : Json) (g : InputFile)
    (hdec : InputFile.fromJson self j = .ok g) :
    j.valueStr "location" "" = .ok g.location ∧
    j.valueStr "name" "" = .ok g.name ∧
    (j.hasKey "fileFormat" = false → g.fileFormat = self.fileFormat) ∧
    (j.hasKey "fileFormat" = true →
      ∃ ff, CvParameter.fromJson {} (j.getD "fileFormat") = .ok ff ∧ g.fileFormat = some ff) ∧
    ((j.hasKey "fileProperties" && (j.getD "fileProperties").isArr) = false →
      g.fileProperties = self.fileProperties) ∧
    ((j.hasKey "fileProperties" && (j.getD "fileProperties").isArr) = true →
      decodeList (fun p => CvParameter.fromJson {} p) (j.getD "fileProperties").arrElems =
        .ok g.fileProperties) := by
  simp only [InputFile.fromJson] at hdec
  obtain ⟨v1, h1, hdec⟩ := bind_ok_inv _ _ _ hdec
  obtain ⟨v2, h2, hdec⟩ := bind_ok_inv _ _ _ hdec
  obtain ⟨v3, h3, hdec⟩ := bind_ok_inv _ _ _ hdec
  obtain ⟨v4, h4, hdec⟩ := bind_ok_inv _ _ _ hdec
  cases hdec
  refine ⟨h1, h2, ?_, ?_, ?_, ?_⟩
  · intro hg
    rw [hg, if_neg Bool.false_ne_true, pureExcept] at h3
    exact (Except.ok.inj h3).symm
  · intro hg
    rw [hg, if_pos rfl] at h3
    obtain ⟨ff, hff, h3x⟩ := bind_ok_inv _ _ _ h3
    rw [pureExcept] at h3x
    exact ⟨ff, hff, (Except.ok.inj h3x).symm⟩
  · intro hg
    rw [hg, if_neg Bool.false_ne_true, pureExcept] at h4
    exact (Except.ok.inj h4).symm
  · intro hg
    rw [hg, if_pos rfl] at h4
    exact h4

theorem qualityMetricFromJson_frame (self : QualityMetric) (j : Json) (g : QualityMetric)
    (hdec : QualityMetric.fromJson self j = .ok g) :
    j.valueStr "accession" "" = .ok g.accession ∧
    j.valueStr "name" "" = .ok g.name ∧
    j.valueStr "description" "" = .ok g.description ∧
    j.valueStr "unit" "" = .ok g.unit ∧
    (j.hasKey "value" = false → g.value = self.value) ∧
    (j.hasKey "value" = true → g.value = j.getD "value") := by
  simp only [QualityMetric.fromJson] at hdec
  obtain ⟨v1, h1, hdec⟩ := bind_ok_inv _ _ _ hdec
  obtain ⟨v2, h2, hdec⟩ := bind_ok_inv _ _ _ hdec
  obtain ⟨v3, h3, hdec⟩ := bind_ok_inv _ _ _ hdec
  obtain ⟨v4, h4, hdec⟩ := bind_ok_inv _ _ _ hdec
  cases hdec
  refine ⟨h1, h2, h3, h4, ?_, ?_⟩
  · intro hg
    rw [hg, if_neg Bool.false_ne_true]
  · intro hg
    rw [hg, if_pos rfl]

theorem setQualityFromJson_frame (self : SetQuality) (j : Json) (g : SetQuality)
    (hdec : SetQuality.fromJson self j = .ok g) :
    j.valueStr "label" "" = .ok g.label ∧
    ((j.hasKey "setRefs" && (j.getD "setRefs").isArr) = false → g.setRefs = self.setRefs) ∧
    ((j.hasKey "setRefs" && (j.getD "setRefs").isArr) = true →
      decodeList Json.getStr (j.getD "setRefs").arrElems = .ok g.setRefs) ∧
    ((j.hasKey "metrics" && (j.getD "metrics").isArr) = false → g.metrics = self.metrics) ∧
    ((j.hasKey "metrics" && (j.getD "metrics").isArr) = true →
      decodeList (fun x => QualityMetric.fromJson {} x) (j.getD "metrics").arrElems =
        .ok g.metrics) := by
  simp only [SetQuality.fromJson] at hdec
  obtain ⟨v1, h1, hdec⟩ := bind_ok_inv _ _ _ hdec
  obtain ⟨v2, h2, hdec⟩ := bind_ok_inv _ _ _ hdec
  obtain ⟨v3, h3, hdec⟩ := bind_ok_inv _ _ _ hdec
  cases hdec
  refine ⟨h1, ?_, ?_, ?_, ?_⟩
  · intro hg
    rw [hg, if_neg Bool.false_ne_true, pureExcept] at h2
    exact (Except.ok.inj h2).symm
  · intro hg
    rw [hg, if_pos rfl] at h2
    exact h2
  · intro hg
    rw [hg, if_neg Bool.false_ne_true, pureExcept] at h3
    exact (Except.ok.inj h3).symm
  · intro hg
    rw [hg, if_pos rfl] at h3
    exact h3

/-- C4 amended: for every wire document and every prior document state,
decoding overwrites each scalar string field with the wire value or its
default (`creationDate` is read when present and regenerated from the
current time when absent, never left blank), while each list field, the
`fileFormat` child and the metric `value` payload follow per-key guards:
they keep their prior contents exactly when their key is absent (or, for
lists, present but not an array), and are cleared and repopulated from the
wire when the key is present as an array — at the document level and at
every nested entity level. -/
theorem claim_C4_frame (self : MzQCFile) (now : Nat) (j : Json) (g : MzQCFile)
    (hdec : MzQCFile.fromJson self now j = .ok g) :
    (((if j.hasKey "mzQC" then j.getD "mzQC" else j).hasKey "creationDate" = false →
      g.creationDate = getCurrentIsoTime now) ∧
    ((if j.hasKey "mzQC" then j.getD "mzQC" else j).hasKey "creationDate" = true →
      ((if j.hasKey "mzQC" then j.getD "mzQC" else j).getD "creationDate").getStr =
        .ok g.creationDate) ∧
    (if j.hasKey "mzQC" then j.getD "mzQC" else j).valueStr "version" "" = .ok g.version ∧
    (if j.hasKey "mzQC" then j.getD "mzQC" else j).valueStr "contactName" "" =
      .ok g.contactName ∧
    (if j.hasKey "mzQC" then j.getD "mzQC" else j).valueStr "contactAddress" "" =
      .ok g.contactAddress ∧
    (if j.hasKey "mzQC" then j.getD "mzQC" else j).valueStr "description" "" =
      .ok g.description ∧
    (((if j.hasKey "mzQC" then j.getD "mzQC" else j).hasKey "controlledVocabularies" &&
        ((if j.hasKey "mzQC" then j.getD "mzQC" else j).getD "controlledVocabularies").isArr) =
        false →
      g.controlledVocabularies = self.controlledVocabularies) ∧
    (((if j.hasKey "mzQC" then j.getD "mzQC" else j).hasKey "controlledVocabularies" &&
        ((if j.hasKey "mzQC" then j.getD "mzQC" else j).getD "controlledVocabularies").isArr) =
        true →
      decodeList (fun x => ControlledVocabulary.fromJson {} x)
        ((if j.hasKey "mzQC" then j.getD "mzQC" else j).getD "controlledVocabularies").arrElems =
        .ok g.controlledVocabularies) ∧
    (((if j.hasKey "mzQC" then j.getD "mzQC" else j).hasKey "runQualities" &&
        ((if j.hasKey "mzQC" then j.getD "mzQC" else j).getD "runQualities").isArr) = false →
      g.runQualities = self.runQualities) ∧
    (((if j.hasKey "mzQC" then j.getD "mzQC" else j).hasKey "runQualities" &&
        ((if j.hasKey "mzQC" then j.getD "mzQC" else j).getD "runQualities").isArr) = true →
      decodeList (fun x => RunQuality.fromJson {} x)
        ((if j.hasKey "mzQC" then j.getD "mzQC" else j).getD "runQualities").arrElems =
        .ok g.runQualities) ∧
    (((if j.hasKey "mzQC" then j.getD "mzQC" else j).hasKey "setQualities" &&
        ((if j.hasKey "mzQC" then j.getD "mzQC" else j).getD "setQualities").isArr) = false →
      g.setQualities = self.setQualities) ∧
    (((if j.hasKey "mzQC" then j.getD "mzQC" else j).hasKey "setQualities" &&
        ((if j.hasKey "mzQC" then j.getD "mzQC" else j).getD "setQualities").isArr) = true →
      decodeList (fun x => SetQuality.fromJson {} x)
        ((if j.hasKey "mzQC" then j.getD "mzQC" else j).getD "setQualities").arrElems =
        .ok g.setQualities)) ∧
    (∀ (rs : RunQuality) (jr : Json) (gr : RunQuality),
      RunQuality.fromJson rs jr = .ok gr →
      jr.valueStr "label" "" = .ok gr.label ∧
      ((jr.hasKey "inputFiles" && (jr.getD "inputFiles").isArr) = false →
        gr.inputFiles = rs.inputFiles) ∧
      ((jr.hasKey "inputFiles" && (jr.getD "inputFiles").isArr) = true →
        decodeList (fun x => InputFile.fromJson {} x) (jr.getD "inputFiles").arrElems =
          .ok gr.inputFiles) ∧
      ((jr.hasKey "analysisSoftware" && (jr.getD "analysisSoftware").isArr) = false →
        gr.analysisSoftware = rs.analysisSoftware) ∧
      ((jr.hasKey "analysisSoftware" && (jr.getD "analysisSoftware").isArr) = true →
        decodeList (fun x => AnalysisSoftware.fromJson {} x)
          (jr.getD "analysisSoftware").arrElems = .ok gr.analysisSoftware) ∧
      ((jr.hasKey "metrics" && (jr.getD "metrics").isArr) = false →
        gr.metrics = rs.metrics) ∧
      ((jr.hasKey "metrics" && (jr.getD "metrics").isArr) = true →
        decodeList (fun x => QualityMetric.fromJson {} x) (jr.getD "metrics").arrElems =
          .ok gr.metrics)) ∧
    (∀ (fs : InputFile) (jf : Json) (gf : InputFile),
      InputFile.fromJson fs jf = .ok gf →
      jf.valueStr "location" "" = .ok gf.location ∧
      jf.valueStr "name" "" = .ok gf.name ∧
      (jf.hasKey "fileFormat" = false → gf.fileFormat = fs.fileFormat) ∧
      (jf.hasKey "fileFormat" = true →
        ∃ ff, CvParameter.fromJson {} (jf.getD "fileFormat") = .ok ff ∧
          gf.fileFormat = some ff) ∧
      ((jf.hasKey "fileProperties" && (jf.getD "fileProperties").isArr) = false →
        gf.fileProperties = fs.fileProperties) ∧
      ((jf.hasKey "fileProperties" && (jf.getD "fileProperties").isArr) = true →
        decodeList (fun p => CvParameter.fromJson {} p) (jf.getD "fileProperties").arrElems =
          .ok gf.fileProperties)) ∧
    (∀ (qs : QualityMetric) (jm : Json) (gm : QualityMetric),
      QualityMetric.fromJson qs jm = .ok gm →
      jm.valueStr "accession" "" = .ok gm.accession ∧
      jm.valueStr "name" "" = .ok gm.name ∧
      jm.valueStr "description" "" = .ok gm.description ∧
      jm.valueStr "unit" "" = .ok gm.unit ∧
      (jm.hasKey "value" = false → gm.value = qs.value) ∧
      (jm.hasKey "value" = true → gm.value = jm.getD "value")) ∧
    (∀ (ss : SetQuality) (js : Json) (gs : SetQuality),
      SetQuality.fromJson ss js = .ok gs →
      js.valueStr "label" "" = .ok gs.label ∧
      ((js.hasKey "setRefs" && (js.getD "setRefs").isArr) = false →
        gs.setRefs = ss.setRefs) ∧
      ((js.hasKey "setRefs" && (js.getD "setRefs").isArr) = true →
        decodeList Json.getStr (js.getD "setRefs").arrElems = .ok gs.setRefs) ∧
      ((js.hasKey "metrics" && (js.getD "metrics").isArr) = false →
        gs.metrics = ss.metrics) ∧
      ((js.hasKey "metrics" && (js.getD "metrics").isArr) = true →
        decodeList (fun x => QualityMetric.fromJson {} x) (js.getD "metrics").arrElems =
          .ok gs.metrics)) :=
  ⟨mzqcFromJson_frame self now j g hdec,
   fun rs jr gr h => runQualityFromJson_frame rs jr gr h,
   fun fs jf gf h => inputFileFromJson_frame fs jf gf h,
   fun qs jm gm h => qualityMetricFromJson_frame qs jm gm h,
   fun ss js gs h => setQualityFromJson_frame ss js gs h⟩

/-- C4 witness: decoding `wireC4` — `contactName` and `creationDate` present,
`runQualities` present but not an array, `setQualities` an empty array,
everything else absent — into the populated `priorDoc` keeps
`controlledVocabularies` and `runQualities`, clears `setQualities`, and
overwrites the scalars. -/
theorem claim_C4_frame_witness :
    MzQCFile.fromJson priorDoc 0 wireC4 = .ok c4Result ∧
    c4Result.controlledVocabularies = priorDoc.controlledVocabularies ∧
    c4Result.runQualities = priorDoc.runQualities ∧
    c4Result.setQualities = [] ∧
    c4Result.creationDate = "2021-01-01T00:00:00Z" ∧ c4Result.version = "" := by
  have h := claim_C4_frame priorDoc 0 wireC4 c4Result rfl
  obtain ⟨⟨-, -, -, -, -, -, h7, -, h9, -, -, h12⟩, -, -, -, -⟩ := h
  refine ⟨rfl, h7 (by decide), h9 (by decide), ?_, rfl, rfl⟩
  exact (Except.ok.inj (h12 (by decide))).symm

/-- C8 counterexample: an inner wire object that itself contains an `mzQC`
key decodes differently wrapped and unwrapped — the unwrapped decode descends
into its `mzQC` member while the wrapped decode reads the sibling fields. -/
theorem claim_C8_counterexample :
    (MzQCFile.fromJson (MzQCFile.fresh 0) 0 (.obj [("mzQC", trickyWire)])).map
      (fun d => d.version) = .ok "y" ∧
    (MzQCFile.fromJson (MzQCFile.fresh 0) 0 trickyWire).map
      (fun d => d.version) = .ok "x" :=
  ⟨rfl, rfl⟩

/-- C8 amended: for every inner wire object that does not itself contain an
`mzQC` key, decoding the wrapped form and the unwrapped form produce
identical results. -/
theorem claim_C8_wrapped (self : MzQCFile) (now : Nat) (j : Json)
    (h : j.hasKey "mzQC" = false) :
    MzQCFile.fromJson self now (.obj [("mzQC", j)]) =
      MzQCFile.fromJson self now j := by
  have h1 : (Json.obj [("mzQC", j)]).hasKey "mzQC" = true := by
    simp [Json.hasKey, Json.find, lookupField]
  have h2 : (Json.obj [("mzQC", j)]).getD "mzQC" = j := by
    simp [Json.getD, Json.find, lookupField]
  simp only [MzQCFile.fromJson, h, h1, h2, if_true, Bool.false_eq_true,
    if_false]

/-- C8 witness: a concrete inner object without an `mzQC` key decodes
identically in both forms. -/
theorem claim_C8_wrapped_witness :
    MzQCFile.fromJson (MzQCFile.fresh 0) 0 (.obj [("mzQC", exInner)]) =
      MzQCFile.fromJson (MzQCFile.fresh 0) 0 exInner :=
  claim_C8_wrapped (MzQCFile.fresh 0) 0 exInner (by decide)

/-- C9: encoding a document whose optional scalars are empty and whose lists
are empty yields a top-level object holding only `version` and
`creationDate`; the six conditional keys are entirely omitted. -/
theorem claim_C9_omission (f : MzQCFile)
    (h1 : f.contactName = "") (h2 : f.contactAddress = "")
    (h3 : f.description = "") (h4 : f.controlledVocabularies = [])
    (h5 : f.runQualities = []) (h6 : f.setQualities = []) :
    f.toJson = .obj [("mzQC", .obj [("version", .str f.version),
      ("creationDate", .str f.creationDate)])] ∧
    f.innerJson.hasKey "contactName" = false ∧
    f.innerJson.hasKey "contactAddress" = false ∧
    f.innerJson.hasKey "description" = false ∧
    f.innerJson.hasKey "controlledVocabularies" = false ∧
    f.innerJson.hasKey "runQualities" = false ∧
    f.innerJson.hasKey "setQualities" = false := by
  refine ⟨?_, ?_, ?_, ?_, ?_, ?_, ?_⟩ <;>
    simp [MzQCFile.toJson, MzQCFile.innerJson, Json.hasKey, Json.find,
      lookupField, h1, h2, h3, h4, h5, h6]

/-- C9 witness: the all-empty example document encodes to exactly the
two-key object. -/
theorem claim_C9_omission_witness :
    exEmptyDoc.toJson = .obj [("mzQC", .obj [("version", .str exEmptyDoc.version),
      ("creationDate", .str exEmptyDoc.creationDate)])] ∧
    exEmptyDoc.innerJson.hasKey "runQualities" = false :=
  ⟨(claim_C9_omission exEmptyDoc rfl rfl rfl rfl rfl rfl).1,
   (claim_C9_omission exEmptyDoc rfl rfl rfl rfl rfl rfl).2.2.2.2.2.1⟩

/-- C10: saving a document whose `controlledVocabularies` list is empty, or
whose `runQualities` and `setQualities` lists are both empty, with validation
enabled always fails with the schema error; the error is thrown before the
output stream is opened, so no file content is produced. -/
theorem claim_C10_toFile (f : MzQCFile) (schemaLoadOk : Bool)
    (h : f.controlledVocabularies = [] ∨
         (f.runQualities = [] ∧ f.setQualities = [])) :
    f.toFile true schemaLoadOk =
      .error "Generated mzQC does not conform to schema" := by
  cases schemaLoadOk with
  | false => simp [MzQCFile.toFile, validateAgainstSchema]
  | true =>
    have hroot : f.toJson.hasKey "mzQC" = true := by
      simp [MzQCFile.toJson, Json.hasKey, Json.find, lookupField]
    have hbody : f.toJson.getD "mzQC" = f.innerJson := by
      simp [MzQCFile.toJson, Json.getD, Json.find, lookupField]
    rcases h with hcv | ⟨hrq, hsq⟩
    · by_cases brq : f.runQualities.isEmpty = true <;>
        by_cases bsq : f.setQualities.isEmpty = true <;>
        simp [MzQCFile.toFile, validateAgainstSchema, schemaChecks, hroot, hbody,
          innerHasKey_version, innerHasKey_creationDate, innerHasKey_runQualities,
          innerHasKey_setQualities, innerHasKey_controlledVocabularies,
          hcv, brq, bsq]
    · simp [MzQCFile.toFile, validateAgainstSchema, schemaChecks, hroot, hbody,
        innerHasKey_version, innerHasKey_creationDate, innerHasKey_runQualities,
        innerHasKey_setQualities, hrq, hsq]

/-- C10 witness: the all-empty example document fails validated save with the
schema error. -/
theorem claim_C10_toFile_witness :
    exEmptyDoc.toFile true true =
      .error "Generated mzQC does not conform to schema" :=
  claim_C10_toFile exEmptyDoc true (Or.inl rfl)

/-! ## Term-cache lemmas -/

theorem overlay_assoc {α : Type} (a b c : Option α) :
    overlay (overlay a b) c = overlay a (overlay b c) := by
  cases a <;> simp [overlay]

theorem lookupTerm_setEntry (cache : List (String × CvTermDetails)) (k : String)
    (v : CvTermDetails) (q : String) :
    lookupTerm (setEntry cache k v) q = if q = k then some v else lookupTerm cache q := by
  induction cache with
  | nil => by_cases h : q = k <;> simp [setEntry, lookupTerm, h]
  | cons p rest ih =>
    cases p with
    | mk k' v' =>
      by_cases h1 : k = k' <;> by_cases h2 : q = k' <;> by_cases h3 : q = k <;>
        simp_all [setEntry, lookupTerm]

theorem lookupTerm_flushTerm (cur : CvTermDetails) (b : Bool)
    (cache : List (String × CvTermDetails)) (q : String) :
    lookupTerm (flushTerm cur b cache) q =
      overlay (lookupTerm (flushTerm cur b []) q) (lookupTerm cache q) := by
  unfold flushTerm
  split
  · by_cases h : q = cur.accession <;>
      simp [lookupTerm_setEntry, lookupTerm, h, overlay]
  · simp [lookupTerm, overlay]

theorem parseLines_overlay (lines : List String) (cur : CvTermDetails) (b : Bool)
    (cache : List (String × CvTermDetails)) (q : String) :
    lookupTerm (parseLines lines cur b cache) q =
      overlay (lookupTerm (parseLines lines cur b []) q) (lookupTerm cache q) := by
  induction lines generalizing cur b cache with
  | nil => simpa [parseLines] using lookupTerm_flushTerm cur b cache q
  | cons line rest ih =>
    simp only [parseLines]
    split
    · exact ih cur b cache
    · split
      · rw [ih {} true (flushTerm cur b cache), ih {} true (flushTerm cur b []),
          lookupTerm_flushTerm, overlay_assoc]
      · split
        · exact ih (applyLine cur line) b cache
        · exact ih cur b cache

/-- C5 counterexample: loading source A (one term `A1`) and then source B
(one term `B1`) leaves `A1` in the cache, which a fresh parse of B alone does
not contain — the cache content after the second load is not exactly the
terms parsed from B. -/
theorem claim_C5_counterexample :
    lookupTerm ((CvTermCache.loadFromOboFile
        (CvTermCache.loadFromOboFile {} "a.obo" ["[Term]", "id:A1"]).1
        "b.obo" ["[Term]", "id:B1"]).1).termCache "A1" =
      some ⟨"A1", "", "", [], [], none, none⟩ ∧
    lookupTerm ((CvTermCache.loadFromOboFile {} "b.obo"
        ["[Term]", "id:B1"]).1).termCache "A1" = none :=
  ⟨rfl, rfl⟩

/-- C5 amended: re-parsing merges instead of replacing — after loading A and
then B, a lookup returns B's binding when B defines the accession and falls
back to A's binding otherwise (the cache is never cleared); within one loaded
source the last parsed definition per accession wins on duplicates. -/
theorem claim_C5_termCache (fileA fileB : String) (linesA linesB : List String)
    (q : String) :
    lookupTerm ((CvTermCache.loadFromOboFile
        (CvTermCache.loadFromOboFile {} fileA linesA).1 fileB linesB).1).termCache q =
      overlay
        (lookupTerm ((CvTermCache.loadFromOboFile {} fileB linesB).1).termCache q)
        (lookupTerm ((CvTermCache.loadFromOboFile {} fileA linesA).1).termCache q) ∧
    lookupTerm ((CvTermCache.parseOboFile {}
        ["[Term]", "id:X", "name:first", "[Term]", "id:X", "name:second"]).1).termCache "X" =
      some ⟨"X", "second", "", [], [], none, none⟩ := by
  constructor
  · simpa [CvTermCache.loadFromOboFile, CvTermCache.parseOboFile] using
      parseLines_overlay linesB {} false
        (parseLines linesA {} false []) q
  · rfl

theorem applyLine_skip (cur : CvTermDetails) (line : String)
    (h : line = "" ∨ strStartsWith line "!" = true) : applyLine cur line = cur := by
  unfold applyLine
  rw [if_pos h]

theorem parseLines_cons_skip (line : String) (rest : List String)
    (cur : CvTermDetails) (b : Bool) (cache : List (String × CvTermDetails))
    (h : line = "" ∨ strStartsWith line "!" = true) :
    parseLines (line :: rest) cur b cache = parseLines rest cur b cache := by
  rw [parseLines, if_pos h]

theorem parseLines_cons_marker (rest : List String) (cur : CvTermDetails)
    (b : Bool) (cache : List (String × CvTermDetails)) :
    parseLines ("[Term]" :: rest) cur b cache =
      parseLines rest {} true (flushTerm cur b cache) := by
  rw [parseLines, if_neg (by decide), if_pos rfl]

theorem parseLines_cons_inTerm (line : String) (rest : List String)
    (cur : CvTermDetails) (cache : List (String × CvTermDetails))
    (h1 : ¬ (line = "" ∨ strStartsWith line "!" = true)) (h2 : ¬ line = "[Term]") :
    parseLines (line :: rest) cur true cache =
      parseLines rest (applyLine cur line) true cache := by
  rw [parseLines, if_neg h1, if_neg h2, if_pos rfl]

theorem parseLines_cons_outside (line : String) (rest : List String)
    (cur : CvTermDetails) (cache : List (String × CvTermDetails))
    (h1 : ¬ (line = "" ∨ strStartsWith line "!" = true)) (h2 : ¬ line = "[Term]") :
    parseLines (line :: rest) cur false cache = parseLines rest cur false cache := by
  rw [parseLines, if_neg h1, if_neg h2, if_neg (by simp)]

theorem parseLines_preamble (pre rest : List String) (cur : CvTermDetails)
    (cache : List (String × CvTermDetails)) (h : "[Term]" ∉ pre) :
    parseLines (pre ++ rest) cur false cache = parseLines rest cur false cache := by
  induction pre with
  | nil => rfl
  | cons line p ih =>
    have hne : ¬ line = "[Term]" := fun he => h (by simp [he])
    have hp : "[Term]" ∉ p := fun hm => h (List.mem_cons_of_mem _ hm)
    rw [List.cons_append]
    by_cases hskip : line = "" ∨ strStartsWith line "!" = true
    · rw [parseLines_cons_skip _ _ _ _ _ hskip]
      exact ih hp
    · rw [parseLines_cons_outside _ _ _ _ hskip hne]
      exact ih hp

theorem parseLines_body (bdy rest : List String) (cur : CvTermDetails)
    (cache : List (String × CvTermDetails)) (h : "[Term]" ∉ bdy) :
    parseLines (bdy ++ rest) cur true cache =
      parseLines rest (bdy.foldl applyLine cur) true cache := by
  induction bdy generalizing cur with
  | nil => rfl
  | cons line b ih =>
    have hne : ¬ line = "[Term]" := fun he => h (by simp [he])
    have hb : "[Term]" ∉ b := fun hm => h (List.mem_cons_of_mem _ hm)
    rw [List.cons_append, List.foldl_cons]
    by_cases hskip : line = "" ∨ strStartsWith line "!" = true
    · rw [parseLines_cons_skip _ _ _ _ _ hskip, applyLine_skip cur line hskip]
      exact ih _ hb
    · rw [parseLines_cons_inTerm _ _ _ _ hskip hne]
      exact ih _ hb

theorem parseLines_blocks (blocks : List (List String)) (cur : CvTermDetails)
    (b : Bool) (cache : List (String × CvTermDetails))
    (h : ∀ x ∈ blocks, "[Term]" ∉ x) :
    parseLines ((blocks.map (fun x => "[Term]" :: x)).flatten) cur b cache =
      runBlocks blocks (flushTerm cur b cache) := by
  induction blocks generalizing cur b cache with
  | nil => rfl
  | cons blk bs ih =>
    simp only [List.map_cons, List.flatten_cons, List.cons_append]
    rw [parseLines_cons_marker]
    rw [parseLines_body _ _ _ _ (h blk (by simp))]
    rw [ih _ true _ (fun x hx => h x (by simp [hx]))]
    rfl

theorem setEntry_not_mem (cache : List (String × CvTermDetails)) (k : String)
    (v : CvTermDetails) (h : k ∉ cache.map Prod.fst) :
    setEntry cache k v = cache ++ [(k, v)] := by
  induction cache with
  | nil => rfl
  | cons p rest ih =>
    cases p with
    | mk k' v' =>
      have h1 : ¬ k = k' := fun he => h (by simp [he])
      have h2 : k ∉ rest.map Prod.fst := fun hm => h (by simp [hm])
      simp [setEntry, h1, ih h2]

theorem runBlocks_count (blocks : List (List String))
    (cache : List (String × CvTermDetails))
    (hnd : (keptAccessions blocks).Nodup)
    (hdisj : ∀ a ∈ keptAccessions blocks, a ∉ cache.map Prod.fst) :
    (runBlocks blocks cache).length = cache.length + (keptAccessions blocks).length ∧
    (runBlocks blocks cache).map Prod.fst = cache.map Prod.fst ++ keptAccessions blocks := by
  induction blocks generalizing cache with
  | nil => simp [runBlocks, keptAccessions]
  | cons blk bs ih =>
    have hstep : runBlocks (blk :: bs) cache =
        runBlocks bs (flushTerm (termOfBody blk) true cache) := rfl
    by_cases hacc : (termOfBody blk).accession = ""
    · have hkept : keptAccessions (blk :: bs) = keptAccessions bs := by
        simp [keptAccessions, hacc]
      have hflush : flushTerm (termOfBody blk) true cache = cache := by
        simp [flushTerm, hacc]
      rw [hstep, hflush, hkept]
      rw [hkept] at hnd hdisj
      exact ih cache hnd hdisj
    · have hkept : keptAccessions (blk :: bs) =
          (termOfBody blk).accession :: keptAccessions bs := by
        simp [keptAccessions, hacc]
      have hmem : (termOfBody blk).accession ∉ cache.map Prod.fst := by
        refine hdisj _ ?_
        rw [hkept]
        exact List.mem_cons_self _ _
      have hflush : flushTerm (termOfBody blk) true cache =
          cache ++ [((termOfBody blk).accession, termOfBody blk)] := by
        simp [flushTerm, hacc, setEntry_not_mem _ _ _ hmem]
      rw [hkept] at hnd hdisj
      have hnd2 : (keptAccessions bs).Nodup := hnd.of_cons
      have hdisj2 : ∀ a ∈ keptAccessions bs,
          a ∉ (cache ++ [((termOfBody blk).accession, termOfBody blk)]).map Prod.fst := by
        intro a ha
        simp only [List.map_append, List.mem_append, List.map_cons, List.map_nil,
          List.mem_singleton, not_or]
        refine ⟨hdisj a (List.mem_cons_of_mem _ ha), ?_⟩
        intro he
        rw [List.nodup_cons] at hnd
        exact hnd.1 (he ▸ ha)
      obtain ⟨hl, hk⟩ := ih _ hnd2 hdisj2
      rw [hstep, hflush] at *
      constructor
      · rw [hl]
        simp [hkept]
        omega
      · rw [hk]
        simp [hkept]

/-- C6 counterexample: two `[Term]` markers, each followed by a non-empty
`id:` line, that share the accession `X` — the cache stores one entry, so
`load` returns 1, not the marker count 2. -/
theorem claim_C6_counterexample :
    (CvTermCache.parseOboFile {} ["[Term]", "id:X", "[Term]", "id:X"]).2 = 1 ∧
    (CvTermCache.parseOboFile {} ["[Term]", "id:X", "[Term]", "id:X"]).2 ≠ 2 :=
  ⟨rfl, by decide⟩

/-- C6 amended: for ontology text made of a marker-free preamble followed by
`[Term]` blocks, loading into a fresh cache returns the number of blocks
whose final accession (last `id:` line wins) is non-empty, provided those
accessions are pairwise distinct; a block with no `id:` line (only blank or
other lines) is not counted, and the record still open at end of input is
flushed. -/
theorem claim_C6_termCount (preamble : List String) (blocks : List (List String))
    (hpre : "[Term]" ∉ preamble)
    (hblocks : ∀ x ∈ blocks, "[Term]" ∉ x)
    (hnd : (keptAccessions blocks).Nodup) :
    (CvTermCache.parseOboFile {}
        (preamble ++ (blocks.map (fun x => "[Term]" :: x)).flatten)).2 =
      (keptAccessions blocks).length := by
  show (parseLines (preamble ++ (blocks.map (fun x => "[Term]" :: x)).flatten)
      {} false []).length = _
  rw [parseLines_preamble _ _ _ _ hpre, parseLines_blocks _ _ _ _ hblocks]
  have hflush : flushTerm {} false [] = [] := rfl
  rw [hflush]
  have := (runBlocks_count blocks [] hnd (by simp)).1
  simpa using this

/-- C6 witness: a header comment, a two-line term, a blank-only block and a
one-line term give count 2. -/
theorem claim_C6_termCount_witness :
    (CvTermCache.parseOboFile {} (["! header", ""] ++
        (([["id: MS:1", "name: one"], [""], ["id: MS:2"]]).map
          (fun x => "[Term]" :: x)).flatten)).2 = 2 := by
  have h := claim_C6_termCount ["! header", ""]
    [["id: MS:1", "name: one"], [""], ["id: MS:2"]]
    (by decide) (by decide) (by decide)
  rw [h]
  decide

/-! ## Time-format lemmas

The coarse bounds below certify the ISO-8601 shape of the generated timestamp
for every clock reading up to `240784703999` seconds after the epoch (far
beyond year 9000); past year 9999 the `%Y` field would grow beyond four
digits and leave the fixed-width ISO-8601 form. -/

theorem civil_parts (z era doe yoe doy mp d m y : Nat)
    (hzlo : 719468 ≤ z) (hz : z ≤ 3506327)
    (hera : era = z / 146097) (hdoe : doe = z % 146097)
    (hyoe : yoe = (doe - doe / 1460 + doe / 36524 - doe / 146096) / 365)
    (hdoy : doy = doe - (365 * yoe + yoe / 4 - yoe / 100))
    (hmp : mp = (5 * doy + 2) / 153)
    (hd : d = doy - (153 * mp + 2) / 5 + 1)
    (hm : m = if mp < 10 then mp + 3 else mp - 9)
    (hy : y = yoe + era * 400 + (if m ≤ 2 then 1 else 0)) :
    1000 ≤ y ∧ y ≤ 9999 ∧ 1 ≤ m ∧ m ≤ 12 ∧ 1 ≤ d ∧ d ≤ 31 := by
  have e0 : z = 146097 * (z / 146097) + z % 146097 := (Nat.div_add_mod z 146097).symm
  have m0 : z % 146097 < 146097 := Nat.mod_lt _ (by omega)
  rw [← hera] at e0
  rw [← hdoe] at e0 m0
  have e1 : doe = 1460 * (doe / 1460) + doe % 1460 := (Nat.div_add_mod doe 1460).symm
  have e2 : doe = 36524 * (doe / 36524) + doe % 36524 := (Nat.div_add_mod doe 36524).symm
  have e3 : doe = 146096 * (doe / 146096) + doe % 146096 := (Nat.div_add_mod doe 146096).symm
  have m1 : doe % 1460 < 1460 := Nat.mod_lt _ (by omega)
  have m2 : doe % 36524 < 36524 := Nat.mod_lt _ (by omega)
  have m3 : doe % 146096 < 146096 := Nat.mod_lt _ (by omega)
  generalize hq1 : doe / 1460 = q1 at *
  generalize hq2 : doe / 36524 = q2 at *
  generalize hq3 : doe / 146096 = q3 at *
  have hq1le : q1 ≤ doe := by omega
  have hA : (doe - q1) + q1 = doe := Nat.sub_add_cancel hq1le
  generalize hAg : doe - q1 = A at *
  have hq3le : q3 ≤ A + q2 := by omega
  have hNeq : (A + q2 - q3) + q3 = A + q2 := Nat.sub_add_cancel hq3le
  generalize hNg : A + q2 - q3 = N at *
  have e4 : N = 365 * (N / 365) + N % 365 := (Nat.div_add_mod N 365).symm
  have m4 : N % 365 < 365 := Nat.mod_lt _ (by omega)
  rw [← hyoe] at e4
  have e5 : yoe = 4 * (yoe / 4) + yoe % 4 := (Nat.div_add_mod yoe 4).symm
  have e6 : yoe = 100 * (yoe / 100) + yoe % 100 := (Nat.div_add_mod yoe 100).symm
  have m5 : yoe % 4 < 4 := Nat.mod_lt _ (by omega)
  have m6 : yoe % 100 < 100 := Nat.mod_lt _ (by omega)
  generalize ha4 : yoe / 4 = a4 at *
  generalize ha100 : yoe / 100 = a100 at *
  have hle : a100 ≤ 365 * yoe + a4 := by omega
  have hB : (365 * yoe + a4 - a100) + a100 = 365 * yoe + a4 := Nat.sub_add_cancel hle
  generalize hBg : 365 * yoe + a4 - a100 = B at *
  have e7 : 5 * doy + 2 = 153 * ((5 * doy + 2) / 153) + (5 * doy + 2) % 153 :=
    (Nat.div_add_mod _ 153).symm
  have m7 : (5 * doy + 2) % 153 < 153 := Nat.mod_lt _ (by omega)
  rw [← hmp] at e7
  have e8 : 153 * mp + 2 = 5 * ((153 * mp + 2) / 5) + (153 * mp + 2) % 5 :=
    (Nat.div_add_mod _ 5).symm
  have m8 : (153 * mp + 2) % 5 < 5 := Nat.mod_lt _ (by omega)
  generalize hC : (153 * mp + 2) / 5 = C at *
  by_cases hBle : B ≤ doe
  case neg =>
    have hdoy0 : doy = 0 := by rw [hdoy]; omega
    subst hdoy0
    by_cases hCle : C ≤ 0
    case pos =>
      have hd1 : d = 1 := by omega
      split at hm <;> split at hy <;> omega
    case neg =>
      have hd1 : d = 1 := by rw [hd]; omega
      split at hm <;> split at hy <;> omega
  case pos =>
    have hdoyB : doy + B = doe := by rw [hdoy]; omega
    by_cases hCle : C ≤ doy
    case pos =>
      have hdC : d = doy - C + 1 := hd
      have hdC2 : (doy - C) + C = doy := Nat.sub_add_cancel hCle
      generalize hDg : doy - C = D at *
      split at hm <;> split at hy <;> omega
    case neg =>
      have hd1 : d = 1 := by rw [hd]; omega
      split at hm <;> split at hy <;> omega

theorem civilFromDays_bounds (z0 : Nat) (h : z0 ≤ 2786859) :
    1000 ≤ (civilFromDays z0).1 ∧ (civilFromDays z0).1 ≤ 9999 ∧
    1 ≤ (civilFromDays z0).2.1 ∧ (civilFromDays z0).2.1 ≤ 12 ∧
    1 ≤ (civilFromDays z0).2.2 ∧ (civilFromDays z0).2.2 ≤ 31 :=
  civil_parts (z0 + 719468) ((z0 + 719468) / 146097) ((z0 + 719468) % 146097)
    _ _ _ _ _ _ (by omega) (by omega) rfl rfl rfl rfl rfl rfl rfl rfl

theorem natDigitsAux_ge (f1 : Nat) : ∀ f2 n, n < f1 → n < f2 →
    natDigitsAux n f1 = natDigitsAux n f2 := by
  induction f1 with
  | zero => omega
  | succ k ih =>
    intro f2 n h1 h2
    cases f2 with
    | zero => omega
    | succ k2 =>
      simp only [natDigitsAux]
      by_cases hn : n < 10
      · simp [hn]
      · simp only [if_neg hn]
        rw [ih k2 (n / 10) (by omega) (by omega)]

theorem natDigits_lt10 (n : Nat) (h : n < 10) :
    natDigits n = [Char.ofNat (48 + n)] := by
  simp [natDigits, natDigitsAux, h]

theorem natDigits_ge10 (n : Nat) (h : 10 ≤ n) :
    natDigits n = natDigits (n / 10) ++ [Char.ofNat (48 + n % 10)] := by
  have step : natDigits n =
      natDigitsAux (n / 10) n ++ [Char.ofNat (48 + n % 10)] := by
    unfold natDigits
    rw [show natDigitsAux n (n + 1) = if n < 10 then [Char.ofNat (48 + n)]
      else natDigitsAux (n / 10) n ++ [Char.ofNat (48 + n % 10)] from rfl]
    rw [if_neg (by omega : ¬ n < 10)]
  rw [step, natDigitsAux_ge n (n / 10 + 1) (n / 10) (by omega) (by omega)]
  rfl

theorem natDigits_four (n : Nat) (h1 : 1000 ≤ n) (h2 : n ≤ 9999) :
    natDigits n = [Char.ofNat (48 + n / 1000), Char.ofNat (48 + n / 100 % 10),
      Char.ofNat (48 + n / 10 % 10), Char.ofNat (48 + n % 10)] := by
  rw [natDigits_ge10 n (by omega), natDigits_ge10 (n / 10) (by omega),
    natDigits_ge10 (n / 10 / 10) (by omega),
    natDigits_lt10 (n / 10 / 10 / 10) (by omega)]
  simp [Nat.div_div_eq_div_mul]

theorem pad2_digits (n : Nat) (h : n ≤ 99) :
    (pad2 n).data = [Char.ofNat (48 + n / 10), Char.ofNat (48 + n % 10)] := by
  by_cases hn : n < 10
  · have h10 : n / 10 = 0 := by omega
    have hmod : n % 10 = n := by omega
    simp [pad2, hn, showNat, natDigits_lt10 n hn, h10, hmod]
  · simp [pad2, hn, showNat, natDigits_ge10 n (by omega),
      natDigits_lt10 (n / 10) (by omega)]

theorem charOfNat_toNat (k : Nat) (h : k < 10) :
    (Char.ofNat (48 + k)).toNat = 48 + k := by
  interval_cases k <;> decide

theorem isDigitCh_ofNat (k : Nat) (h : k < 10) :
    isDigitCh (Char.ofNat (48 + k)) = true := by
  simp [isDigitCh, charOfNat_toNat k h]
  omega

theorem twoDigitVal_ofNat (a b : Nat) (ha : a < 10) (hb : b < 10) :
    twoDigitVal (Char.ofNat (48 + a)) (Char.ofNat (48 + b)) = a * 10 + b := by
  simp [twoDigitVal, charOfNat_toNat a ha, charOfNat_toNat b hb]

theorem getCurrentIsoTime_wellFormed (now : Nat) (h : now ≤ 240784703999) :
    isIso8601UTC (getCurrentIsoTime now) = true := by
  simp only [getCurrentIsoTime]
  generalize hymd : civilFromDays (now / 86400) = ymd
  obtain ⟨y, m, d⟩ := ymd
  have hb := civilFromDays_bounds (now / 86400) (by omega)
  rw [hymd] at hb
  have hy1 : 1000 ≤ y := hb.1
  have hy2 : y ≤ 9999 := hb.2.1
  have hm1 : 1 ≤ m := hb.2.2.1
  have hm2 : m ≤ 12 := hb.2.2.2.1
  have hd1 : 1 ≤ d := hb.2.2.2.2.1
  have hd2 : d ≤ 31 := hb.2.2.2.2.2
  generalize hH : now % 86400 / 3600 = hh
  generalize hM : now % 86400 % 3600 / 60 = mi
  generalize hS : now % 86400 % 60 = ss
  have hhh : hh ≤ 23 := by omega
  have hmi : mi ≤ 59 := by omega
  have hss : ss ≤ 59 := by omega
  have hdata : (showNat (y, m, d).1 ++ "-" ++ pad2 (y, m, d).2.1 ++ "-" ++
      pad2 (y, m, d).2.2 ++ "T" ++ pad2 hh ++ ":" ++ pad2 mi ++ ":" ++
      pad2 ss ++ "Z").data =
      [Char.ofNat (48 + y / 1000), Char.ofNat (48 + y / 100 % 10),
       Char.ofNat (48 + y / 10 % 10), Char.ofNat (48 + y % 10), '-',
       Char.ofNat (48 + m / 10), Char.ofNat (48 + m % 10), '-',
       Char.ofNat (48 + d / 10), Char.ofNat (48 + d % 10), 'T',
       Char.ofNat (48 + hh / 10), Char.ofNat (48 + hh % 10), ':',
       Char.ofNat (48 + mi / 10), Char.ofNat (48 + mi % 10), ':',
       Char.ofNat (48 + ss / 10), Char.ofNat (48 + ss % 10), 'Z'] := by
    simp [String.data_append, showNat, natDigits_four y hy1 hy2,
      pad2_digits m (by omega), pad2_digits d (by omega),
      pad2_digits hh (by omega), pad2_digits mi (by omega),
      pad2_digits ss (by omega)]
  simp only [isIso8601UTC, hdata]
  simp only [isDigitCh_ofNat (y / 1000) (by omega), isDigitCh_ofNat (y / 100 % 10) (by omega),
    isDigitCh_ofNat (y / 10 % 10) (by omega), isDigitCh_ofNat (y % 10) (by omega),
    isDigitCh_ofNat (m / 10) (by omega), isDigitCh_ofNat (m % 10) (by omega),
    isDigitCh_ofNat (d / 10) (by omega), isDigitCh_ofNat (d % 10) (by omega),
    isDigitCh_ofNat (hh / 10) (by omega), isDigitCh_ofNat (hh % 10) (by omega),
    isDigitCh_ofNat (mi / 10) (by omega), isDigitCh_ofNat (mi % 10) (by omega),
    isDigitCh_ofNat (ss / 10) (by omega), isDigitCh_ofNat (ss % 10) (by omega),
    twoDigitVal_ofNat (m / 10) (m % 10) (by omega) (by omega),
    twoDigitVal_ofNat (d / 10) (d % 10) (by omega) (by omega),
    twoDigitVal_ofNat (hh / 10) (hh % 10) (by omega) (by omega),
    twoDigitVal_ofNat (mi / 10) (mi % 10) (by omega) (by omega),
    twoDigitVal_ofNat (ss / 10) (ss % 10) (by omega) (by omega)]
  simp only [beq_self_eq_true, Bool.and_eq_true, decide_eq_true_eq, and_true,
    true_and, Nat.le_refl]
  omega

set_option maxHeartbeats 1600000 in
/-- C7: whenever a document's `creationDate` is not supplied — constructed
with an empty `creationDate` argument, or decoded from a wire body lacking
the `creationDate` key — it is generated from the current clock reading as a
well-formed, never-blank ISO-8601 UTC timestamp; consequently decoding the
same `creationDate`-less bytes at two different times yields different
documents (shown at clock readings 0 and 1).  The clock bound keeps the year
below 10000, where `%Y` stays four digits. -/
theorem claim_C7_creationDate (now : Nat) (hnow : now ≤ 240784703999)
    (version contactName contactAddress description : String)
    (runQualities : List RunQuality) (setQualities : List SetQuality) :
    (MzQCFile.construct now "" version contactName contactAddress description
        runQualities setQualities).creationDate = getCurrentIsoTime now ∧
    (∀ (self g : MzQCFile) (j : Json),
      (if j.hasKey "mzQC" then j.getD "mzQC" else j).hasKey "creationDate" = false →
      MzQCFile.fromJson self now j = .ok g →
      g.creationDate = getCurrentIsoTime now) ∧
    isIso8601UTC (getCurrentIsoTime now) = true ∧
    getCurrentIsoTime now ≠ "" ∧
    (MzQCFile.fromJson (MzQCFile.fresh 0) 0 (Json.obj [])).map (fun g => g.creationDate) =
      .ok "1970-01-01T00:00:00Z" ∧
    (MzQCFile.fromJson (MzQCFile.fresh 0) 1 (Json.obj [])).map (fun g => g.creationDate) =
      .ok "1970-01-01T00:00:01Z" ∧
    ("1970-01-01T00:00:00Z" : String) ≠ "1970-01-01T00:00:01Z" := by
  refine ⟨by simp [MzQCFile.construct], ?_, getCurrentIsoTime_wellFormed now hnow,
    ?_, rfl, rfl, by decide⟩
  · intro self g j hko hdec
    simp only [MzQCFile.fromJson] at hdec
    rw [hko] at hdec
    simp only [Bool.false_eq_true, if_false, pureExcept, bindOk] at hdec
    obtain ⟨v1, -, hdec⟩ := bind_ok_inv _ _ _ hdec
    obtain ⟨v2, -, hdec⟩ := bind_ok_inv _ _ _ hdec
    obtain ⟨v3, -, hdec⟩ := bind_ok_inv _ _ _ hdec
    obtain ⟨v4, -, hdec⟩ := bind_ok_inv _ _ _ hdec
    obtain ⟨v5, -, hdec⟩ := bind_ok_inv _ _ _ hdec
    obtain ⟨v6, -, hdec⟩ := bind_ok_inv _ _ _ hdec
    obtain ⟨v7, -, hdec⟩ := bind_ok_inv _ _ _ hdec
    cases hdec
    rfl
  · intro hempty
    have : (getCurrentIsoTime now).data = [] := by rw [hempty]
    have hlen := getCurrentIsoTime_wellFormed now hnow
    rw [isIso8601UTC] at hlen
    rw [this] at hlen
    simp at hlen

set_option maxHeartbeats 1600000 in
/-- C7 witness: at the concrete clock reading 1700000000 the constructed
document's generated `creationDate` is the well-formed timestamp
`2023-11-14T22:13:20Z`. -/
theorem claim_C7_creationDate_witness :
    (MzQCFile.construct 1700000000 "" "1.0.0" "" "" "" [] []).creationDate =
      getCurrentIsoTime 1700000000 ∧
    isIso8601UTC (getCurrentIsoTime 1700000000) = true ∧
    getCurrentIsoTime 1700000000 = "2023-11-14T22:13:20Z" :=
  ⟨(claim_C7_creationDate 1700000000 (by decide) "1.0.0" "" "" "" [] []).1,
   (claim_C7_creationDate 1700000000 (by decide) "1.0.0" "" "" "" [] []).2.2.1,
   by decide⟩

end MzqcSpec
